import Mathlib

/-!
Shallow embedding of the performance-analytics engine of the Poker_Analysis
repository (files `Python-Poker-Tracker/analytics.py` and
`Python-Poker-Tracker/alpha_decay.py`), together with theorems settling the
frozen claims about it.

Modelling conventions:
* Python floats are modelled as real numbers (`ℝ`).  Division by zero follows
  Lean's convention `x / 0 = 0`; the float values `inf`/`NaN` produced by such
  corner cases are not modelled except where a claim depends on them
  (the profit factor's `float('inf')` is modelled explicitly by `PFactor.inf`,
  and pandas `NaN` entries of rolling series are modelled by `Option ℝ` with
  `none` for `NaN`, with `nanMean` skipping `none` exactly as pandas `mean`
  skips `NaN`).
* A Python method returning either `{}`, a dict `{"error": msg}`, or a dict of
  data is modelled as a `PyDict` value with constructors `empty`, `error msg`
  and `ok data`.
* `np.random.normal(m, s, k)` is modelled as `m + s * z i` for draws `z i`
  taken from an explicit stream `z : ℕ → ℝ` at an advancing cursor; this makes
  the ambient global numpy generator explicit (the source passes no seed).
* The p-value produced by `scipy.stats.linregress` (external library code) is
  modelled as an abstract parameter `pv`; every theorem below holds for every
  choice of `pv`.
-/

/-- One recorded play session.  Only the fields the analytics engine actually
reads are carried: `profit_loss` (used by every analyzer) and `buy_in`
(used for the derived `roi` column).  `date`, `cash_out`, `fees` and
`new_deposit` are never read by the embedded computations. -/
structure Session where
  profit_loss : ℝ
  buy_in : ℝ

/-- Result of a Python method that returns either `{}` (empty dict), an
insufficient-data dict `{"error": msg}`, or a dict of computed data. -/
inductive PyDict (α : Type) where
  | empty : PyDict α
  | error (msg : String) : PyDict α
  | ok (a : α) : PyDict α

/-- Whether a result is an insufficient-data dict, i.e. whether the Python
dict would contain the key `"error"`. -/
def PyDict.isError {α : Type} : PyDict α → Bool
  | .error _ => true
  | _ => false

/-- Mean of a list, `sum / len` (pandas `Series.mean`; `0` models the
`NaN` a mean of an empty series would give). -/
noncomputable def meanL (l : List ℝ) : ℝ := l.sum / l.length

/-- Sample variance with divisor `n - 1` (pandas `Series.var`, default
`ddof=1`).  For a single point the real-division convention gives `0` where
pandas gives `NaN`. -/
noncomputable def sampleVar (l : List ℝ) : ℝ :=
  (l.map (fun x => (x - meanL l) ^ 2)).sum / ((l.length : ℝ) - 1)

/-- Sample standard deviation (pandas `Series.std`, default `ddof=1`). -/
noncomputable def sampleStd (l : List ℝ) : ℝ := Real.sqrt (sampleVar l)

/-- Population variance with divisor `n` (numpy `ndarray.var`, `ddof=0`). -/
noncomputable def npVar (l : List ℝ) : ℝ :=
  (l.map (fun x => (x - meanL l) ^ 2)).sum / (l.length : ℝ)

/-- Population standard deviation (numpy `ndarray.std`, `ddof=0`). -/
noncomputable def npStd (l : List ℝ) : ℝ := Real.sqrt (npVar l)

/-- Ascending sort of a list of reals. -/
noncomputable def sortL (l : List ℝ) : List ℝ :=
  l.mergeSort (fun a b => decide (a ≤ b))

/-- Median (pandas `Series.median`): middle element of the sorted list, or the
mean of the two middle elements for even length. -/
noncomputable def medianL (l : List ℝ) : ℝ :=
  let s := sortL l
  if l.length % 2 = 1 then s.getD (l.length / 2) 0
  else (s.getD (l.length / 2 - 1) 0 + s.getD (l.length / 2) 0) / 2

/-- Linear-interpolation percentile, `np.percentile(l, q)` with the default
`linear` method: with `h = (n-1)·q/100`, interpolates between the sorted
elements at `⌊h⌋` and `⌊h⌋+1`. -/
noncomputable def percentileL (q : ℝ) (l : List ℝ) : ℝ :=
  let s := sortL l
  let h : ℝ := ((l.length : ℝ) - 1) * q / 100
  let i : ℕ := (⌊h⌋).toNat
  s.getD i 0 + (h - i) * (s.getD (i + 1) (s.getD i 0) - s.getD i 0)

/-- Maximum of a list (pandas `Series.max`; `0` models the empty case). -/
def listMax (l : List ℝ) : ℝ :=
  match l with
  | [] => 0
  | x :: xs => xs.foldl max x

/-- Minimum of a list (pandas `Series.min`; `0` models the empty case). -/
def listMin (l : List ℝ) : ℝ :=
  match l with
  | [] => 0
  | x :: xs => xs.foldl min x

/-- Percentage of positive entries, `(x > 0).mean() * 100`; the boolean mean
is written as the mean of 0/1 indicators. -/
noncomputable def winrateOf (l : List ℝ) : ℝ :=
  (l.map (fun x => if 0 < x then (1 : ℝ) else 0)).sum / l.length * 100

/-- The `profit_loss` column of the derived DataFrame. -/
def plColumn (s : List Session) : List ℝ := s.map Session.profit_loss

/-- The `roi` column: `profit_loss / buy_in * 100`, `0` when `buy_in ≤ 0`
is not positive (the source guards with `if session['buy_in'] > 0`). -/
noncomputable def roiColumn (s : List Session) : List ℝ :=
  s.map (fun x => if 0 < x.buy_in then x.profit_loss / x.buy_in * 100 else 0)

/-- The `cumulative_pl` column, `profit_loss.cumsum()`: entry `i` is the sum
of the first `i+1` profit/loss values. -/
def cumulativePL (pl : List ℝ) : List ℝ :=
  (List.range pl.length).map (fun i => (pl.take (i + 1)).sum)

/-- The `session_number` column, `range(1, len(df)+1)`. -/
def sessionNumbers (n : ℕ) : List ℝ :=
  (List.range n).map (fun i => (Nat.cast i + 1 : ℝ))

/-- Profit factor value: a finite float or `float('inf')`. -/
inductive PFactor where
  | fin (x : ℝ) : PFactor
  | inf : PFactor

/-- Sum of the winning sessions' profits, `pl_series[pl_series > 0].sum()`. -/
noncomputable def winSum (pl : List ℝ) : ℝ :=
  (pl.filter (fun x => decide (0 < x))).sum

/-- Sum of the losing sessions' losses, `pl_series[pl_series < 0].sum()`. -/
noncomputable def lossSum (pl : List ℝ) : ℝ :=
  (pl.filter (fun x => decide (x < 0))).sum

/-- Data computed by `PokerAnalytics.basic_stats` on a non-empty table. -/
structure BasicStats where
  total_sessions : ℕ
  win_rate : ℝ
  mean_profit_loss : ℝ
  median_profit_loss : ℝ
  std_dev : ℝ
  variance : ℝ
  skewness : ℝ
  kurtosis : ℝ
  max_win : ℝ
  max_loss : ℝ
  profit_factor : PFactor

/-- Fisher-Pearson adjusted skewness as computed by pandas `Series.skew`:
`n/((n-1)(n-2)) · Σ((x-mean)/s)³` with `s` the sample std-dev. -/
noncomputable def pandasSkew (l : List ℝ) : ℝ :=
  let n : ℝ := l.length
  n / ((n - 1) * (n - 2)) *
    (l.map (fun x => ((x - meanL l) / sampleStd l) ^ 3)).sum

/-- Unbiased excess kurtosis as computed by pandas `Series.kurtosis`. -/
noncomputable def pandasKurt (l : List ℝ) : ℝ :=
  let n : ℝ := l.length
  n * (n + 1) / ((n - 1) * (n - 2) * (n - 3)) *
    (l.map (fun x => ((x - meanL l) / sampleStd l) ^ 4)).sum
    - 3 * (n - 1) ^ 2 / ((n - 2) * (n - 3))

/-- Body of `basic_stats` for a non-empty session list.  The profit factor is
`abs(sum(wins)/sum(losses))` when the loss total is non-zero and
`float('inf')` otherwise, exactly as in the source. -/
noncomputable def basic_core (s : List Session) : BasicStats :=
  let pl := plColumn s
  { total_sessions := s.length
    win_rate := winrateOf pl
    mean_profit_loss := meanL pl
    median_profit_loss := medianL pl
    std_dev := sampleStd pl
    variance := sampleVar pl
    skewness := pandasSkew pl
    kurtosis := pandasKurt pl
    max_win := listMax pl
    max_loss := listMin pl
    profit_factor :=
      if lossSum pl ≠ 0 then .fin |winSum pl / lossSum pl| else .inf }

/-- `PokerAnalytics.basic_stats`: `{}` on an empty table, else the stats. -/
noncomputable def basic_stats (s : List Session) : PyDict BasicStats :=
  if s.length = 0 then .empty else .ok (basic_core s)

/-- Data computed by `PokerAnalytics.risk_metrics`. -/
structure RiskStats where
  max_drawdown : ℝ
  current_drawdown : ℝ
  sharpe_ratio : ℝ
  var_95 : ℝ
  expected_shortfall_95 : ℝ
  volatility : ℝ
  downside_deviation : ℝ

/-- Running maximum of a list, `Series.expanding().max()`. -/
def expandingMax (l : List ℝ) : List ℝ :=
  (List.range l.length).map (fun i => listMax (l.take (i + 1)))

/-- Last element of a real-valued series, `iloc[-1]` (default `0` models the
empty case, which every use below rules out by a length gate). -/
def ilocLastR (l : List ℝ) : ℝ := l.getD (l.length - 1) 0

/-- Body of `risk_metrics` for a table with at least two rows. -/
noncomputable def risk_core (s : List Session) : RiskStats :=
  let pl := plColumn s
  let cum := cumulativePL pl
  let drawdown := List.zipWith (fun a b => a - b) cum (expandingMax cum)
  let var95 := percentileL 5 pl
  { max_drawdown := listMin drawdown
    current_drawdown := ilocLastR drawdown
    sharpe_ratio := if 0 < sampleStd pl then meanL pl / sampleStd pl else 0
    var_95 := var95
    expected_shortfall_95 := meanL (pl.filter (fun x => decide (x ≤ var95)))
    volatility := sampleStd pl
    downside_deviation := sampleStd (pl.filter (fun x => decide (x < 0))) }

/-- `PokerAnalytics.risk_metrics`: `{}` when the table is empty or has fewer
than two rows (`if self.df.empty or len(self.df) < 2`), else the metrics. -/
noncomputable def risk_metrics (s : List Session) : PyDict RiskStats :=
  if s.length < 2 then .empty else .ok (risk_core s)

/-- Data computed by `PokerAnalytics.monte_carlo_simulation`. -/
structure MCStats where
  mean_expected_pl : ℝ
  median_expected_pl : ℝ
  std_expected_pl : ℝ
  prob_profit : ℝ
  percentile_5 : ℝ
  percentile_95 : ℝ
  sessions_simulated : ℕ
  simulations_run : ℕ

/-- The simulated final P/L values: simulation `k` sums `sessions_ahead`
draws `mean + std * z (cursor + k*sessions_ahead + i)` — the model of
`np.random.normal(mean_pl, std_pl, sessions_ahead).sum()` with the global
generator's standard-normal draws made explicit as the stream `z`. -/
noncomputable def mcFinalPLs (z : ℕ → ℝ) (cursor num_simulations sessions_ahead : ℕ)
    (pl : List ℝ) : List ℝ :=
  (List.range num_simulations).map (fun k =>
    ((List.range sessions_ahead).map (fun i =>
      meanL pl + sampleStd pl * z (cursor + k * sessions_ahead + i))).sum)

/-- `PokerAnalytics.monte_carlo_simulation`.  The source accepts no seed: it
draws from the ambient numpy generator, modelled by the stream `z` and the
cursor of already-consumed draws; the returned cursor reflects the draws this
run consumed.  Returns `{}` on an empty table. -/
noncomputable def monte_carlo_simulation (z : ℕ → ℝ) (cursor : ℕ)
    (num_simulations sessions_ahead : ℕ) (s : List Session) :
    PyDict MCStats × ℕ :=
  if s.length = 0 then (.empty, cursor)
  else
    let pl := plColumn s
    let finals := mcFinalPLs z cursor num_simulations sessions_ahead pl
    (.ok { mean_expected_pl := meanL finals
           median_expected_pl := medianL finals
           std_expected_pl := npStd finals
           prob_profit := winrateOf finals
           percentile_5 := percentileL 5 finals
           percentile_95 := percentileL 95 finals
           sessions_simulated := sessions_ahead
           simulations_run := num_simulations },
     cursor + num_simulations * sessions_ahead)

/-- The winning entries of a profit/loss column,
`df[df['profit_loss'] > 0]['profit_loss']`. -/
noncomputable def winsOf (pl : List ℝ) : List ℝ :=
  pl.filter (fun x => decide (0 < x))

/-- The losing entries of a profit/loss column. -/
noncomputable def lossesOf (pl : List ℝ) : List ℝ :=
  pl.filter (fun x => decide (x < 0))

/-- The Kelly odds ratio `b = avg_win / avg_loss` with
`avg_loss = abs(losses.mean())`. -/
noncomputable def kellyB (s : List Session) : ℝ :=
  meanL (winsOf (plColumn s)) / |meanL (lossesOf (plColumn s))|

/-- The Kelly win probability `p = len(wins) / len(df)`. -/
noncomputable def kellyP (s : List Session) : ℝ :=
  ((winsOf (plColumn s)).length : ℝ) / (s.length : ℝ)

/-- `PokerAnalytics.kelly_criterion`.  Returns the bare number `0` on an empty
table, when there are no winning or no losing sessions, or when the average
loss is zero; otherwise `max(0, (b*p - q)/b)` with `b = avg_win/avg_loss`,
`p = win_rate`, `q = 1 - p`. -/
noncomputable def kelly_criterion (s : List Session) : ℝ :=
  if s.length = 0 then 0
  else if (winsOf (plColumn s)).length = 0 ∨
      (lossesOf (plColumn s)).length = 0 then 0
  else if |meanL (lossesOf (plColumn s))| = 0 then 0
  else max 0 ((kellyB s * kellyP s - (1 - kellyP s)) / kellyB s)

/-- Entry `i` of a pandas `Series.rolling(window=w)` aggregation: `none`
(`NaN`) while the window is not yet full, otherwise `f` applied to the `w`
values ending at position `i`. -/
noncomputable def rollingEntry (w : ℕ) (f : List ℝ → ℝ) (l : List ℝ) (i : ℕ) :
    Option ℝ :=
  if i + 1 < w then none else some (f ((l.drop (i + 1 - w)).take w))

/-- A rolling aggregation series, same length as the input. -/
noncomputable def rollingApply (w : ℕ) (f : List ℝ → ℝ) (l : List ℝ) :
    List (Option ℝ) :=
  (List.range l.length).map (rollingEntry w f l)

/-- Pointwise division of two possibly-`NaN` series entries (`NaN` whenever
either operand is `NaN`).  A float division by `0.0` would give `inf`/`NaN`;
the real-division convention gives `0` there, a corner no claim depends on. -/
noncomputable def optDiv : Option ℝ → Option ℝ → Option ℝ
  | some a, some b => some (a / b)
  | _, _ => none

/-- Mean of a series that skips `NaN` entries, as pandas `Series.mean` does
(`0` models the `NaN` returned when no entry is valid). -/
noncomputable def nanMean (l : List (Option ℝ)) : ℝ := meanL (l.filterMap id)

/-- Value of `iloc[-1]` on a possibly-`NaN` series (`0` models both the empty
series and a `NaN` last entry; all gated uses have a valid last entry). -/
def ilocLastO (l : List (Option ℝ)) : ℝ := (l.getD (l.length - 1) none).getD 0

/-- Percent deterioration of a current value against a historical baseline:
`(cur - hist)/|hist| * 100` guarded to `0` when the baseline is zero. -/
noncomputable def pctDet (cur hist : ℝ) : ℝ :=
  if hist ≠ 0 then (cur - hist) / |hist| * 100 else 0

/-- Per-window data of `rolling_performance_analysis` (the dict stored under
the key `f'{period}_session'`). -/
structure WindowData where
  current_avg_pl : ℝ
  historical_avg_pl : ℝ
  pl_deterioration : ℝ
  current_sharpe : ℝ
  historical_sharpe : ℝ
  sharpe_deterioration : ℝ
  current_winrate : ℝ
  historical_winrate : ℝ
  winrate_deterioration : ℝ
  series_mean : List (Option ℝ)
  series_sharpe : List (Option ℝ)
  series_winrate : List (Option ℝ)

/-- The computation done inside the `for period in self.lookback_periods`
loop body: rolling mean / std / Sharpe (mean divided by std, elementwise) /
win rate at window `w`, last value vs the mean of the series excluding the
trailing `w` entries (`iloc[:-period].mean()`, which skips `NaN`), and the
win-rate comparison as an absolute difference. -/
noncomputable def windowData (w : ℕ) (pl : List ℝ) : WindowData :=
  let rm := rollingApply w meanL pl
  let rsh := List.zipWith optDiv (rollingApply w meanL pl)
    (rollingApply w sampleStd pl)
  let rwr := rollingApply w winrateOf pl
  let cm := ilocLastO rm
  let hm := nanMean (rm.take (pl.length - w))
  let cs := ilocLastO rsh
  let hs := nanMean (rsh.take (pl.length - w))
  let cw := ilocLastO rwr
  let hw := nanMean (rwr.take (pl.length - w))
  { current_avg_pl := cm
    historical_avg_pl := hm
    pl_deterioration := pctDet cm hm
    current_sharpe := cs
    historical_sharpe := hs
    sharpe_deterioration := pctDet cs hs
    current_winrate := cw
    historical_winrate := hw
    winrate_deterioration := cw - hw
    series_mean := rm
    series_sharpe := rsh
    series_winrate := rwr }

/-- Python `max` over the `lookback_periods` list. -/
def periodsMax (ps : List ℕ) : ℕ := ps.foldr max 0

/-- Result of `rolling_performance_analysis`: one `WindowData` per configured
period; the dict key `f'{p}_session'` exists exactly when `p` is in
`periods`, and lookup is modelled by applying `data`. -/
structure RollingResult where
  periods : List ℕ
  data : ℕ → WindowData

/-- Body of `rolling_performance_analysis` past its length gate. -/
noncomputable def rolling_core (ps : List ℕ) (s : List Session) :
    RollingResult :=
  { periods := ps, data := fun w => windowData w (plColumn s) }

/-- `AlphaDecayAnalyzer.rolling_performance_analysis` with lookback periods
`ps` (source default `[10, 20, 50]`): the insufficient-data dict when fewer
than `max(ps)` sessions exist, else the per-window data. -/
noncomputable def rolling_performance_analysis (ps : List ℕ)
    (s : List Session) : PyDict RollingResult :=
  if s.length < periodsMax ps then
    .error ("Need at least " ++ toString (periodsMax ps) ++ " sessions")
  else .ok (rolling_core ps s)

/-- Centered product sum `Σ (xs i - mean xs) * (ys i - mean ys)` over the
paired arrays; `linSxy xs xs` is the centered sum of squares.  The
`scipy.stats.linregress` slope and r-value are ratios of these sums (the
`1/n` factors of scipy's covariance form cancel). -/
noncomputable def linSxy (xs ys : List ℝ) : ℝ :=
  (List.zipWith (fun a b => (a - meanL xs) * (b - meanL ys)) xs ys).sum

/-- Per-metric result dict of `trend_analysis`. -/
structure TrendData where
  slope : ℝ
  r_squared : ℝ
  p_value : ℝ
  trend_direction : String
  significance : String
  trend_strength : ℝ

/-- Significance bucket of a p-value, as classified in `trend_analysis`. -/
noncomputable def significanceOf (p : ℝ) : String :=
  if p < 0.01 then "Highly Significant"
  else if p < 0.05 then "Significant"
  else if p < 0.10 then "Marginally Significant"
  else "Not Significant"

/-- One `stats.linregress(xs, ys)` fit plus the classification done in
`trend_analysis`.  The p-value is external scipy library code, modelled by
the abstract parameter `pv` applied to the metric values (the regressor is
always the session-number column, determined by the length). -/
noncomputable def trendFit (pv : List ℝ → ℝ) (xs ys : List ℝ) : TrendData :=
  let sl := linSxy xs ys / linSxy xs xs
  let r := linSxy xs ys / Real.sqrt (linSxy xs xs * linSxy ys ys)
  let p := pv ys
  { slope := sl
    r_squared := r ^ 2
    p_value := p
    trend_direction := if 0 < sl then "Improving" else "Deteriorating"
    significance := significanceOf p
    trend_strength := |r| }

/-- The three per-metric results of `trend_analysis`, keyed in the source by
`'profit_loss'`, `'cumulative_pl'` and `'roi'`. -/
structure TrendResult where
  profit_loss : TrendData
  cumulative_pl : TrendData
  roi : TrendData

/-- Body of `trend_analysis` past its length gate. -/
noncomputable def trend_core (pv : List ℝ → ℝ) (s : List Session) :
    TrendResult :=
  let pl := plColumn s
  let xs := sessionNumbers s.length
  { profit_loss := trendFit pv xs pl
    cumulative_pl := trendFit pv xs (cumulativePL pl)
    roi := trendFit pv xs (roiColumn s) }

/-- `AlphaDecayAnalyzer.trend_analysis`. -/
noncomputable def trend_analysis (pv : List ℝ → ℝ) (s : List Session) :
    PyDict TrendResult :=
  if s.length < 10 then .error "Need at least 10 sessions for trend analysis"
  else .ok (trend_core pv s)

/-- Float comparison `a <= b` on possibly-`NaN` values: any comparison with
`NaN` is `False` in Python. -/
noncomputable def oLE : Option ℝ → Option ℝ → Bool
  | some a, some b => decide (a ≤ b)
  | _, _ => false

/-- Float comparison `a < b` on possibly-`NaN` values. -/
noncomputable def oLT : Option ℝ → Option ℝ → Bool
  | some a, some b => decide (a < b)
  | _, _ => false

/-- Result of `regime_change_detection`. -/
structure RegimeResult where
  current_regime : String
  recent_crossovers : List (String × ℕ)
  total_regime_changes : ℕ
  short_ma_current : ℝ
  long_ma_current : ℝ

/-- One iteration of the crossover scan at index `i`: a bullish crossover
when the short MA crosses above the long MA, bearish when below, guarded on
both current entries being valid exactly as the source's `pd.isna` checks. -/
noncomputable def crossoverAt (sm lm : List (Option ℝ)) (i : ℕ) :
    Option (String × ℕ) :=
  if (sm.getD i none).isSome && (lm.getD i none).isSome then
    if oLE (sm.getD (i - 1) none) (lm.getD (i - 1) none) &&
        oLT (lm.getD i none) (sm.getD i none) then some ("bullish", i)
    else if oLE (lm.getD (i - 1) none) (sm.getD (i - 1) none) &&
        oLT (sm.getD i none) (lm.getD i none) then some ("bearish", i)
    else none
  else none

/-- Body of `regime_change_detection` past its length gates: 5- and
15-session simple moving averages, the crossover scan over
`range(long_window, len(short_ma))`, and the current regime from the final
MA values (`"Neutral"` only for an empty series, unreachable past the
gate). -/
noncomputable def regime_core (s : List Session) : RegimeResult :=
  let pl := plColumn s
  let sm := rollingApply 5 meanL pl
  let lm := rollingApply 15 meanL pl
  let crossovers := (List.range' 15 (pl.length - 15)).filterMap
    (crossoverAt sm lm)
  { current_regime :=
      if 0 < s.length then
        if oLT (lm.getD (lm.length - 1) none) (sm.getD (sm.length - 1) none)
        then "Good Performance" else "Poor Performance"
      else "Neutral"
    recent_crossovers := crossovers.drop (crossovers.length - 3)
    total_regime_changes := crossovers.length
    short_ma_current := if 0 < s.length then ilocLastO sm else 0
    long_ma_current := if 0 < s.length then ilocLastO lm else 0 }

/-- `AlphaDecayAnalyzer.regime_change_detection`.  The second gate (`Need at
least 15 sessions`) is dead code behind the first, embedded faithfully. -/
noncomputable def regime_change_detection (s : List Session) :
    PyDict RegimeResult :=
  if s.length < 20 then
    .error "Need at least 20 sessions for regime detection"
  else if s.length < 15 then .error "Need at least 15 sessions"
  else .ok (regime_core s)

/-- Result of `volatility_clustering`. -/
structure VolResult where
  current_volatility_5session : ℝ
  historical_volatility_5session : ℝ
  volatility_ratio : ℝ
  volatility_regime : String
  volatility_trend : List (Option ℝ)

/-- The 5-session rolling standard deviation series `rolling_vol_5`. -/
noncomputable def rollingVol5 (s : List Session) : List (Option ℝ) :=
  rollingApply 5 sampleStd (plColumn s)

/-- `current_vol_5 = rolling_vol_5.iloc[-1] if len(rolling_vol_5) > 0 else 0`. -/
noncomputable def currentVol5 (s : List Session) : ℝ :=
  if 0 < (rollingVol5 s).length then ilocLastO (rollingVol5 s) else 0

/-- `historical_vol_5`: mean (skipping `NaN`) of the 5-session rolling std
excluding the trailing 5 entries, `0` when the series has at most 5 rows. -/
noncomputable def historicalVol5 (s : List Session) : ℝ :=
  if 5 < (rollingVol5 s).length then
    nanMean ((rollingVol5 s).take ((rollingVol5 s).length - 5))
  else 0

/-- Body of `volatility_clustering` past its length gate: latest 5-session
rolling std against the mean of that series excluding the trailing 5 points.
The source also computes a 10-session rolling std that it never uses; it is
not carried.  The regime comparisons are strict, as in the source. -/
noncomputable def volatility_core (s : List Session) : VolResult :=
  { current_volatility_5session := currentVol5 s
    historical_volatility_5session := historicalVol5 s
    volatility_ratio :=
      if 0 < historicalVol5 s then currentVol5 s / historicalVol5 s else 1
    volatility_regime :=
      if historicalVol5 s * 1.5 < currentVol5 s then "High Volatility"
      else if currentVol5 s < historicalVol5 s * 0.7 then "Low Volatility"
      else "Normal"
    volatility_trend :=
      if 5 ≤ (rollingVol5 s).length then
        (rollingVol5 s).drop ((rollingVol5 s).length - 5)
      else [] }

/-- `AlphaDecayAnalyzer.volatility_clustering`. -/
noncomputable def volatility_clustering (s : List Session) : PyDict VolResult :=
  if s.length < 10 then .error "Need at least 10 sessions"
  else .ok (volatility_core s)

/-- P/L sub-score of Factor 1:
`max(0, min(40, -pl_deterioration)) if pl_deterioration < 0 else 0`. -/
noncomputable def plComponent (w : WindowData) : ℝ :=
  if w.pl_deterioration < 0 then max 0 (min 40 (-w.pl_deterioration)) else 0

/-- Sharpe sub-score of Factor 1 (the deterioration is halved; cap 20). -/
noncomputable def sharpeComponent (w : WindowData) : ℝ :=
  if w.sharpe_deterioration < 0 then
    max 0 (min 20 (-w.sharpe_deterioration / 2))
  else 0

/-- Win-rate sub-score of Factor 1 (cap 20). -/
noncomputable def winrateComponent (w : WindowData) : ℝ :=
  if w.winrate_deterioration < 0 then
    max 0 (min 20 (-w.winrate_deterioration))
  else 0

/-- Factor 1 of the decay score, guarded by the `'20_session' in rolling_perf`
membership test: the three sub-scores of the 20-session window data. -/
noncomputable def perfComponent (rp : RollingResult) : ℝ :=
  if 20 ∈ rp.periods then
    plComponent (rp.data 20) + sharpeComponent (rp.data 20) +
      winrateComponent (rp.data 20)
  else 0

/-- The `significance_multiplier` dict lookup with default `0.1`. -/
noncomputable def significance_multiplier (sig : String) : ℝ :=
  if sig = "Highly Significant" then 1
  else if sig = "Significant" then 0.7
  else if sig = "Marginally Significant" then 0.4
  else 0.1

/-- Factor 2 of the decay score: `trend_strength * 30 * multiplier` for a
deteriorating profit/loss trend (the `'profit_loss' in trends` guard is
always true on the non-error path, the dict being built with fixed keys). -/
noncomputable def trendComponent (t : TrendData) : ℝ :=
  if t.trend_direction = "Deteriorating" then
    t.trend_strength * 30 * significance_multiplier t.significance
  else 0

/-- Factor 3 of the decay score: 20 flat points for a poor regime. -/
noncomputable def regimeComponent (g : RegimeResult) : ℝ :=
  if g.current_regime = "Poor Performance" then 20 else 0

/-- Factor 4 of the decay score:
`min(10, (vol_ratio - 1) * 10)` under high volatility. -/
noncomputable def volComponent (v : VolResult) : ℝ :=
  if v.volatility_regime = "High Volatility" then
    min 10 (( VolResult.volatility_ratio v - 1) * 10)
  else 0

/-- The accumulated `decay_score`: the four factors summed in source order. -/
noncomputable def decayScoreOf (rp : RollingResult) (tr : TrendResult)
    (rg : RegimeResult) (vol : VolResult) : ℝ :=
  perfComponent rp + trendComponent tr.profit_loss + regimeComponent rg +
    volComponent vol

/-- Classification of the final score into a decay level and recommendation
(thresholds 70/50/30/15). -/
noncomputable def decayLevel (score : ℝ) : String × String :=
  if 70 ≤ score then
    ("SEVERE ALPHA DECAY", "STOP PLAYING - Your edge has significantly deteriorated")
  else if 50 ≤ score then
    ("MODERATE ALPHA DECAY", "REDUCE STAKES - Review strategy and take a break")
  else if 30 ≤ score then
    ("MILD ALPHA DECAY", "CAUTION - Monitor closely and consider strategy review")
  else if 15 ≤ score then
    ("SLIGHT DETERIORATION", "WATCH - Some performance decline detected")
  else
    ("STABLE/IMPROVING", "CONTINUE - Performance remains strong")

/-- The `component_scores` sub-dict of the result. -/
structure ComponentScores where
  performance_deterioration : ℝ
  negative_trend : ℝ
  regime_change : ℝ
  volatility_increase : ℝ

/-- The full `alpha_decay_score` result dict. -/
structure AlphaResult where
  alpha_decay_score : ℝ
  decay_level : String
  recommendation : String
  component_scores : ComponentScores

/-- Body of `alpha_decay_score` on the non-error path.  Note that three of
the reported `component_scores` are computed as capped fractions of the
final score (`decay_score * 0.4` etc.), not as the factors' actual
contributions; only `regime_change` reports the actual contribution. -/
noncomputable def alpha_core (pv : List ℝ → ℝ) (s : List Session) :
    AlphaResult :=
  let rg := regime_core s
  let score := decayScoreOf (rolling_core [10, 20, 50] s) (trend_core pv s)
    rg (volatility_core s)
  { alpha_decay_score := score
    decay_level := (decayLevel score).1
    recommendation := (decayLevel score).2
    component_scores :=
      { performance_deterioration := min 80 (score * 0.4)
        negative_trend := min 30 (score * 0.3)
        regime_change :=
          if rg.current_regime = "Poor Performance" then 20 else 0
        volatility_increase := min 10 (score * 0.1) } }

/-- `AlphaDecayAnalyzer.alpha_decay_score` with the class's default lookback
periods `[10, 20, 50]`: if any of the four dependency results contains an
`"error"` key, the fixed message `"Insufficient data for alpha decay
analysis"` is returned (not the dependency's own message); otherwise the
composite score. -/
noncomputable def alpha_decay_score (pv : List ℝ → ℝ) (s : List Session) :
    PyDict AlphaResult :=
  if (rolling_performance_analysis [10, 20, 50] s).isError ||
      (trend_analysis pv s).isError ||
      (regime_change_detection s).isError ||
      (volatility_clustering s).isError then
    .error "Insufficient data for alpha decay analysis"
  else .ok (alpha_core pv s)

/-- Gate of the rolling analyzer at the default periods, error side. -/
theorem rolling_gate_error (s : List Session) (h : s.length < 50) :
    rolling_performance_analysis [10, 20, 50] s =
      PyDict.error "Need at least 50 sessions" := by
  have hp : periodsMax [10, 20, 50] = 50 := by decide
  rw [rolling_performance_analysis, hp, if_pos h]
  congr 1

/-- Gate of the rolling analyzer at the default periods, data side. -/
theorem rolling_gate_ok (s : List Session) (h : 50 ≤ s.length) :
    rolling_performance_analysis [10, 20, 50] s =
      PyDict.ok (rolling_core [10, 20, 50] s) := by
  have hp : periodsMax [10, 20, 50] = 50 := by decide
  rw [rolling_performance_analysis, hp, if_neg (by omega)]

/-- Gate of the trend analyzer, data side. -/
theorem trend_gate_ok (pv : List ℝ → ℝ) (s : List Session)
    (h : 10 ≤ s.length) : trend_analysis pv s = PyDict.ok (trend_core pv s) := by
  rw [trend_analysis, if_neg (by omega)]

/-- Gate of the regime detector, data side. -/
theorem regime_gate_ok (s : List Session) (h : 20 ≤ s.length) :
    regime_change_detection s = PyDict.ok (regime_core s) := by
  rw [regime_change_detection, if_neg (by omega), if_neg (by omega)]

/-- Gate of the volatility analyzer, data side. -/
theorem vol_gate_ok (s : List Session) (h : 10 ≤ s.length) :
    volatility_clustering s = PyDict.ok (volatility_core s) := by
  rw [volatility_clustering, if_neg (by omega)]

/-- The composite scorer returns its fixed insufficient-data message when
any dependency reports an error. -/
theorem alpha_error_fixed (pv : List ℝ → ℝ) (s : List Session)
    (h : (rolling_performance_analysis [10, 20, 50] s).isError = true ∨
      (trend_analysis pv s).isError = true ∨
      (regime_change_detection s).isError = true ∨
      (volatility_clustering s).isError = true) :
    alpha_decay_score pv s =
      PyDict.error "Insufficient data for alpha decay analysis" := by
  rw [alpha_decay_score]
  rcases h with h | h | h | h <;> simp [h]

/-- With at least 50 sessions every dependency gate passes and the composite
scorer returns its data dict. -/
theorem alpha_gate_ok (pv : List ℝ → ℝ) (s : List Session)
    (h : 50 ≤ s.length) :
    alpha_decay_score pv s = PyDict.ok (alpha_core pv s) := by
  rw [alpha_decay_score, rolling_gate_ok s h, trend_gate_ok pv s (by omega),
    regime_gate_ok s (by omega), vol_gate_ok s (by omega)]
  simp [PyDict.isError]

/-- A constant all-zeros draw stream, used to instantiate the RNG model. -/
def zeroStream : ℕ → ℝ := fun _ => 0

/-- A constant all-ones draw stream. -/
def oneStream : ℕ → ℝ := fun _ => 1

/-- A constant p-value model, used to instantiate the abstract scipy
p-value parameter. -/
def pvOne : List ℝ → ℝ := fun _ => 1

/-- A session with unit profit and unit buy-in. -/
def sess1 : Session := { profit_loss := 1, buy_in := 1 }

/-- A session with the given profit/loss and unit buy-in. -/
def sessOf (x : ℝ) : Session := { profit_loss := x, buy_in := 1 }

/-- Claim C1 (amended): on too-short input the four analytics-side
components report by an empty mapping (`basic_stats`, `risk_metrics`,
`monte_carlo_simulation`) or the bare number `0` (`kelly_criterion`), never
an error mapping; only the alpha-decay components (`rolling`, `trend`,
`regime`, `volatility`) report a mapping with an `error` field carrying the
minimum-session requirement.  None raises. -/
theorem C1_insufficient_data_reporting (s : List Session) (z : ℕ → ℝ)
    (c n k : ℕ) (pv : List ℝ → ℝ) :
    (s.length = 0 → basic_stats s = PyDict.empty) ∧
    (s.length < 2 → risk_metrics s = PyDict.empty) ∧
    (s.length = 0 → (monte_carlo_simulation z c n k s).1 = PyDict.empty) ∧
    (s.length = 0 → kelly_criterion s = 0) ∧
    (s.length < 50 → rolling_performance_analysis [10, 20, 50] s =
      PyDict.error "Need at least 50 sessions") ∧
    (s.length < 10 → trend_analysis pv s =
      PyDict.error "Need at least 10 sessions for trend analysis") ∧
    (s.length < 20 → regime_change_detection s =
      PyDict.error "Need at least 20 sessions for regime detection") ∧
    (s.length < 10 → volatility_clustering s =
      PyDict.error "Need at least 10 sessions") := by
  refine ⟨?_, ?_, ?_, ?_, ?_, ?_, ?_, ?_⟩
  · intro h; simp [basic_stats, h]
  · intro h; simp [risk_metrics, h]
  · intro h; simp [monte_carlo_simulation, h]
  · intro h; simp [kelly_criterion, h]
  · intro h
    have hp : periodsMax [10, 20, 50] = 50 := by decide
    rw [rolling_performance_analysis, hp, if_pos h]
    congr 1
  · intro h; rw [trend_analysis, if_pos h]
  · intro h; rw [regime_change_detection, if_pos h]
  · intro h; rw [volatility_clustering, if_pos h]

/-- Witness for C1 at the empty session sequence. -/
theorem C1_insufficient_data_reporting_witness :
    basic_stats [] = PyDict.empty ∧ risk_metrics [] = PyDict.empty ∧
    (monte_carlo_simulation zeroStream 0 1000 100 []).1 = PyDict.empty ∧
    kelly_criterion [] = 0 ∧
    rolling_performance_analysis [10, 20, 50] [] =
      PyDict.error "Need at least 50 sessions" ∧
    trend_analysis pvOne [] =
      PyDict.error "Need at least 10 sessions for trend analysis" ∧
    regime_change_detection [] =
      PyDict.error "Need at least 20 sessions for regime detection" ∧
    volatility_clustering [] = PyDict.error "Need at least 10 sessions" := by
  have h := C1_insufficient_data_reporting [] zeroStream 0 1000 100 pvOne
  exact ⟨h.1 rfl, h.2.1 (by norm_num), h.2.2.1 rfl, h.2.2.2.1 rfl,
    h.2.2.2.2.1 (by norm_num), h.2.2.2.2.2.1 (by norm_num),
    h.2.2.2.2.2.2.1 (by norm_num), h.2.2.2.2.2.2.2 (by norm_num)⟩

/-- Counterexample to C1 as stated: `basic_stats` on the empty sequence and
`risk_metrics` on a single session return the empty mapping, with no `error`
field, and `kelly_criterion` on the empty sequence returns the bare number
`0`, contradicting the claim that these components return a mapping
containing an `error` field. -/
theorem C1_counterexample :
    basic_stats [] = PyDict.empty ∧
    risk_metrics [sess1] = PyDict.empty ∧
    (basic_stats []).isError = false ∧
    (risk_metrics [sess1]).isError = false ∧
    kelly_criterion [] = 0 := by
  refine ⟨by simp [basic_stats], by simp [risk_metrics], ?_, ?_,
    by simp [kelly_criterion]⟩
  · simp [basic_stats, PyDict.isError]
  · simp [risk_metrics, PyDict.isError]

/-- Claim C2 (amended): `rolling_performance_analysis` reports insufficient
data exactly when fewer than `max(windows)` (= 50 by default) sessions
exist; with exactly `max(windows)` sessions it already returns the
per-window data mappings, and likewise with `max(windows)+1`. -/
theorem C2_gate_boundary (s : List Session) :
    ((rolling_performance_analysis [10, 20, 50] s).isError = true ↔
      s.length < 50) ∧
    (s.length < 50 → rolling_performance_analysis [10, 20, 50] s =
      PyDict.error "Need at least 50 sessions") ∧
    (50 ≤ s.length → rolling_performance_analysis [10, 20, 50] s =
      PyDict.ok (rolling_core [10, 20, 50] s)) := by
  have hp : periodsMax [10, 20, 50] = 50 := by decide
  refine ⟨?_, ?_, ?_⟩
  · rw [rolling_performance_analysis, hp]
    by_cases h : s.length < 50
    · simp [h, PyDict.isError]
    · simp [h, PyDict.isError]
  · intro h; rw [rolling_performance_analysis, hp, if_pos h]; congr 1
  · intro h; rw [rolling_performance_analysis, hp, if_neg (by omega)]

/-- Witness for C2 at a 51-session sequence. -/
theorem C2_gate_boundary_witness :
    (List.replicate 51 sess1).length = 51 ∧
    rolling_performance_analysis [10, 20, 50] (List.replicate 51 sess1) =
      PyDict.ok (rolling_core [10, 20, 50] (List.replicate 51 sess1)) :=
  ⟨by simp, (C2_gate_boundary _).2.2 (by simp)⟩

/-- Counterexample to C2 as stated: with exactly 50 sessions the analyzer
does **not** return the insufficient-data result — the gate is strict
(`len < max(periods)`), so 50 sessions already produce the data dict. -/
theorem C2_counterexample :
    (List.replicate 50 sess1).length = 50 ∧
    rolling_performance_analysis [10, 20, 50] (List.replicate 50 sess1) =
      PyDict.ok (rolling_core [10, 20, 50] (List.replicate 50 sess1)) ∧
    (rolling_performance_analysis [10, 20, 50]
      (List.replicate 50 sess1)).isError = false := by
  have h := rolling_gate_ok (List.replicate 50 sess1) (by simp)
  exact ⟨by simp, h, by rw [h]; rfl⟩

/-- Claim C3 (amended): whenever any of the four dependencies reports an
insufficient-data condition, `alpha_decay_score` returns the fixed message
`"Insufficient data for alpha decay analysis"` — not the dependency's own
message — and produces no partial score. -/
theorem C3_error_propagation (pv : List ℝ → ℝ) (s : List Session)
    (h : (rolling_performance_analysis [10, 20, 50] s).isError = true ∨
      (trend_analysis pv s).isError = true ∨
      (regime_change_detection s).isError = true ∨
      (volatility_clustering s).isError = true) :
    alpha_decay_score pv s =
      PyDict.error "Insufficient data for alpha decay analysis" :=
  alpha_error_fixed pv s h

/-- Witness for C3 at the empty session sequence. -/
theorem C3_error_propagation_witness :
    alpha_decay_score pvOne [] =
      PyDict.error "Insufficient data for alpha decay analysis" := by
  have hr := rolling_gate_error [] (by norm_num)
  exact C3_error_propagation pvOne [] (Or.inl (by rw [hr]; rfl))

/-- Counterexample to C3 as stated: on the empty sequence the rolling
dependency's message is `"Need at least 50 sessions"`, but the composite
returns the different fixed message, so the first dependency error is not
propagated verbatim. -/
theorem C3_counterexample :
    alpha_decay_score pvOne [] =
      PyDict.error "Insufficient data for alpha decay analysis" ∧
    rolling_performance_analysis [10, 20, 50] [] =
      PyDict.error "Need at least 50 sessions" ∧
    "Insufficient data for alpha decay analysis" ≠
      "Need at least 50 sessions" := by
  refine ⟨?_, rolling_gate_error [] (by norm_num), by decide⟩
  refine alpha_error_fixed pvOne [] (Or.inl ?_)
  rw [rolling_gate_error [] (by norm_num)]
  rfl

/-- Sum of a non-empty list of negative reals is negative. -/
theorem list_sum_neg {l : List ℝ} (hne : l ≠ []) (h : ∀ x ∈ l, x < 0) :
    l.sum < 0 := by
  induction l with
  | nil => exact absurd rfl hne
  | cons a t ih =>
    rcases eq_or_ne t [] with rfl | ht
    · simpa using h a (by simp)
    · have ha := h a (by simp)
      have hts := ih ht (fun x hx => h x (by simp [hx]))
      simpa using add_neg ha hts

/-- Mean of a non-empty list of negative reals is negative. -/
theorem meanL_neg {l : List ℝ} (hne : l ≠ []) (h : ∀ x ∈ l, x < 0) :
    meanL l < 0 := by
  have hlen : 0 < (l.length : ℝ) := by
    have : 0 < l.length := List.length_pos.mpr hne
    exact_mod_cast this
  exact div_neg_of_neg_of_pos (list_sum_neg hne h) hlen

/-- Every member of the losing subseries is negative. -/
theorem lossesOf_mem_neg {pl : List ℝ} {x : ℝ} (hx : x ∈ lossesOf pl) :
    x < 0 := by
  have := (List.mem_filter.mp hx).2
  simpa using this

/-- The winning total is non-negative. -/
theorem winSum_nonneg (pl : List ℝ) : 0 ≤ winSum pl := by
  refine List.sum_nonneg ?_
  intro x hx
  have := (List.mem_filter.mp hx).2
  have : 0 < x := by simpa using this
  exact this.le

/-- The concrete Kelly example `[+10, +10, -5, -5]` from the spec. -/
def kellyExample : List Session :=
  [sessOf 10, sessOf 10, sessOf (-5), sessOf (-5)]

/-- The winning subseries of the Kelly example. -/
theorem kellyExample_wins : winsOf (plColumn kellyExample) = [10, 10] := by
  norm_num [winsOf, plColumn, kellyExample, sessOf, List.filter_cons]

/-- The losing subseries of the Kelly example. -/
theorem kellyExample_losses :
    lossesOf (plColumn kellyExample) = [-5, -5] := by
  norm_num [lossesOf, plColumn, kellyExample, sessOf, List.filter_cons]

/-- Claim C9: `kelly_criterion` returns `0` whenever there is no winning or
no losing session, otherwise `max(0, (b·p − q)/b)`; the result is never
negative, and on `[+10, +10, -5, -5]` it is `0.25`. -/
theorem C9_kelly_criterion :
    (∀ s : List Session,
      ((winsOf (plColumn s) = [] ∨ lossesOf (plColumn s) = []) →
        kelly_criterion s = 0) ∧
      (winsOf (plColumn s) ≠ [] → lossesOf (plColumn s) ≠ [] →
        kelly_criterion s =
          max 0 ((kellyB s * kellyP s - (1 - kellyP s)) / kellyB s)) ∧
      0 ≤ kelly_criterion s) ∧
    kelly_criterion kellyExample = 1 / 4 := by
  constructor
  · intro s
    refine ⟨?_, ?_, ?_⟩
    · intro h
      rw [kelly_criterion]
      by_cases hs : s.length = 0
      · simp [hs]
      · rw [if_neg hs, if_pos]
        rcases h with h | h
        · exact Or.inl (by simp [h])
        · exact Or.inr (by simp [h])
    · intro hw hl
      have hs : ¬s.length = 0 := by
        intro hs
        rw [List.length_eq_zero] at hs
        subst hs
        exact hw (by simp [winsOf, plColumn])
      have habs : ¬|meanL (lossesOf (plColumn s))| = 0 := by
        have hm : meanL (lossesOf (plColumn s)) < 0 :=
          meanL_neg hl (fun x hx => lossesOf_mem_neg hx)
        simpa using hm.ne
      rw [kelly_criterion, if_neg hs, if_neg (by
        push_neg
        constructor
        · simpa [List.length_eq_zero] using hw
        · simpa [List.length_eq_zero] using hl), if_neg habs]
    · rw [kelly_criterion]
      split_ifs <;> simp [le_max_left]
  · rw [kelly_criterion]
    rw [if_neg (by simp [kellyExample]), if_neg ?hc, if_neg ?hd]
    case hc =>
      push_neg
      rw [kellyExample_wins, kellyExample_losses]
      simp
    case hd =>
      rw [kellyExample_losses]
      norm_num [meanL]
    have hB : kellyB kellyExample = 2 := by
      rw [kellyB, kellyExample_wins, kellyExample_losses]
      norm_num [meanL]
    have hP : kellyP kellyExample = 1 / 2 := by
      rw [kellyP, kellyExample_wins]
      norm_num [kellyExample]
    rw [hB, hP]
    norm_num

/-- Witness for C9: the formula branch on the concrete example, with both
non-emptiness hypotheses discharged. -/
theorem C9_kelly_criterion_witness :
    kelly_criterion kellyExample =
      max 0 ((kellyB kellyExample * kellyP kellyExample -
        (1 - kellyP kellyExample)) / kellyB kellyExample) ∧
    kelly_criterion kellyExample = 1 / 4 :=
  ⟨(C9_kelly_criterion.1 kellyExample).2.1
      (by rw [kellyExample_wins]; simp)
      (by rw [kellyExample_losses]; simp),
    C9_kelly_criterion.2⟩

/-- Claim C6 (amended): the profit factor equals
`sum(wins) / |sum(losses)|` whenever the loss total is non-zero (in
particular it is `0` when there are no wins but there are losses), and it is
`float('inf')` exactly when the loss total is zero — including sequences
with no winning session, such as all-zero sequences. -/
theorem C6_profit_factor (s : List Session) (h : s.length ≠ 0) :
    basic_stats s = PyDict.ok (basic_core s) ∧
    ((basic_core s).profit_factor = PFactor.inf ↔
      lossSum (plColumn s) = 0) ∧
    (lossSum (plColumn s) ≠ 0 →
      (basic_core s).profit_factor =
        PFactor.fin (winSum (plColumn s) / |lossSum (plColumn s)|)) ∧
    (winsOf (plColumn s) = [] → lossSum (plColumn s) ≠ 0 →
      (basic_core s).profit_factor = PFactor.fin 0) := by
  have hpf : (basic_core s).profit_factor =
      if lossSum (plColumn s) ≠ 0 then
        PFactor.fin |winSum (plColumn s) / lossSum (plColumn s)|
      else PFactor.inf := by
    rw [basic_core]
  refine ⟨by rw [basic_stats, if_neg h], ?_, ?_, ?_⟩
  · rw [hpf]
    by_cases hl : lossSum (plColumn s) = 0
    · simp [hl]
    · simp [hl]
  · intro hl
    rw [hpf, if_pos hl]
    have hw : |winSum (plColumn s) / lossSum (plColumn s)| =
        winSum (plColumn s) / |lossSum (plColumn s)| := by
      rw [abs_div, abs_of_nonneg (winSum_nonneg _)]
    rw [hw]
  · intro hw hl
    have hz : winSum (plColumn s) = 0 := by
      have : winSum (plColumn s) = (winsOf (plColumn s)).sum := rfl
      rw [this, hw]
      simp
    rw [hpf, if_pos hl, hz]
    simp

/-- Witness for C6 at `[+5, -3]`: finite profit factor `5 / 3`. -/
theorem C6_profit_factor_witness :
    basic_stats [sessOf 5, sessOf (-3)] =
      PyDict.ok (basic_core [sessOf 5, sessOf (-3)]) ∧
    (basic_core [sessOf 5, sessOf (-3)]).profit_factor =
      PFactor.fin (5 / 3) := by
  have hl : lossSum (plColumn [sessOf 5, sessOf (-3)]) = -3 := by
    norm_num [lossSum, plColumn, sessOf, List.filter_cons]
  have hwin : winSum (plColumn [sessOf 5, sessOf (-3)]) = 5 := by
    norm_num [winSum, plColumn, sessOf, List.filter_cons]
  have h := C6_profit_factor [sessOf 5, sessOf (-3)] (by norm_num)
  refine ⟨h.1, ?_⟩
  have h3 := h.2.2.1 (by rw [hl]; norm_num)
  rw [h3, hl, hwin]
  norm_num

/-- Counterexample to C6 as stated: the single zero-profit session has no
winning session, yet its profit factor is `inf` (the source tests only
whether the loss total is zero), not the `0` the claim requires for
win-free sequences. -/
theorem C6_counterexample :
    basic_stats [sessOf 0] = PyDict.ok (basic_core [sessOf 0]) ∧
    winsOf (plColumn [sessOf 0]) = [] ∧
    (basic_core [sessOf 0]).profit_factor = PFactor.inf := by
  have hls : lossSum (plColumn [sessOf 0]) = 0 := by
    norm_num [lossSum, plColumn, sessOf, List.filter_cons]
  have hpf : (basic_core [sessOf 0]).profit_factor =
      if lossSum (plColumn [sessOf 0]) ≠ 0 then
        PFactor.fin |winSum (plColumn [sessOf 0]) /
          lossSum (plColumn [sessOf 0])|
      else PFactor.inf := by
    rw [basic_core]
  refine ⟨by rw [basic_stats, if_neg (by norm_num)], ?_, ?_⟩
  · norm_num [winsOf, plColumn, sessOf, List.filter_cons]
  · rw [hpf, if_neg (by rw [hls]; simp)]

/-- Population variance (divisor `n`): the quantity the specification says
`basic_stats` reports as `variance`, defined here from the spec's words for
comparison with the source's sample variance. -/
noncomputable def specPopulationVariance (l : List ℝ) : ℝ :=
  (l.map (fun x => (x - meanL l) ^ 2)).sum / (l.length : ℝ)

/-- Claim C7 (amended): for at least two sessions, `std_dev` and `variance`
are the pandas *sample* statistics (divisor `n - 1`), i.e. `n/(n-1)` times
the population variance the claim asserts — not the population values. -/
theorem C7_sample_variance (s : List Session) (h : 2 ≤ s.length) :
    basic_stats s = PyDict.ok (basic_core s) ∧
    (basic_core s).variance = sampleVar (plColumn s) ∧
    (basic_core s).std_dev = Real.sqrt (sampleVar (plColumn s)) ∧
    (basic_core s).variance = ((s.length : ℝ) / ((s.length : ℝ) - 1)) *
      specPopulationVariance (plColumn s) := by
  have hv : (basic_core s).variance = sampleVar (plColumn s) := by
    rw [basic_core]
  have hs : (basic_core s).std_dev = sampleStd (plColumn s) := by
    rw [basic_core]
  refine ⟨by rw [basic_stats, if_neg (by omega)], hv, by rw [hs, sampleStd],
    ?_⟩
  have hlen : (plColumn s).length = s.length := by simp [plColumn]
  rw [hv, sampleVar, specPopulationVariance, hlen]
  have h0 : ((s.length : ℝ)) ≠ 0 := by
    have : (2 : ℝ) ≤ (s.length : ℝ) := by exact_mod_cast h
    linarith
  have h1 : ((s.length : ℝ)) - 1 ≠ 0 := by
    have : (2 : ℝ) ≤ (s.length : ℝ) := by exact_mod_cast h
    linarith
  field_simp
  ring

/-- Witness for C7 at `[0, +2]`: sample variance `2`. -/
theorem C7_sample_variance_witness :
    basic_stats [sessOf 0, sessOf 2] =
      PyDict.ok (basic_core [sessOf 0, sessOf 2]) ∧
    (basic_core [sessOf 0, sessOf 2]).variance = 2 := by
  have h := C7_sample_variance [sessOf 0, sessOf 2] (by norm_num)
  refine ⟨h.1, ?_⟩
  rw [h.2.1]
  norm_num [sampleVar, meanL, plColumn, sessOf]

/-- Counterexample to C7 as stated: on `[0, +2]` the population variance is
`1` and the population std-dev is `1`, but the source reports variance `2`
and std-dev `√2 ≠ 1` (pandas `ddof=1`). -/
theorem C7_counterexample :
    (basic_core [sessOf 0, sessOf 2]).variance = 2 ∧
    specPopulationVariance (plColumn [sessOf 0, sessOf 2]) = 1 ∧
    (2 : ℝ) ≠ 1 ∧
    (basic_core [sessOf 0, sessOf 2]).std_dev = Real.sqrt 2 ∧
    (basic_core [sessOf 0, sessOf 2]).std_dev ≠ 1 := by
  have hvp : (basic_core [sessOf 0, sessOf 2]).variance =
      sampleVar (plColumn [sessOf 0, sessOf 2]) := by
    rw [basic_core]
  have hsp : (basic_core [sessOf 0, sessOf 2]).std_dev =
      sampleStd (plColumn [sessOf 0, sessOf 2]) := by
    rw [basic_core]
  have hvar : sampleVar (plColumn [sessOf 0, sessOf 2]) = 2 := by
    norm_num [sampleVar, meanL, plColumn, sessOf]
  have hstd : (basic_core [sessOf 0, sessOf 2]).std_dev = Real.sqrt 2 := by
    rw [hsp, sampleStd, hvar]
  refine ⟨by rw [hvp, hvar], ?_, by norm_num, hstd, ?_⟩
  · norm_num [specPopulationVariance, meanL, plColumn, sessOf]
  · rw [hstd]
    intro hone
    have h2 := Real.sq_sqrt (by norm_num : (0:ℝ) ≤ 2)
    rw [hone] at h2
    norm_num at h2

/-- A rolling series has the same length as its input, as in pandas. -/
theorem length_rollingApply (w : ℕ) (f : List ℝ → ℝ) (l : List ℝ) :
    (rollingApply w f l).length = l.length := by
  simp [rollingApply]

/-- Indexing a map over `List.range`. -/
theorem getD_map_range {α : Type} (d : α) (g : ℕ → α) {n i : ℕ} (hi : i < n) :
    ((List.range n).map g).getD i d = g i := by
  rw [List.getD_eq_getElem?_getD, List.getElem?_map, List.getElem?_range hi]
  rfl

/-- Indexing a rolling series within bounds. -/
theorem getD_rollingApply (w : ℕ) (f : List ℝ → ℝ) (l : List ℝ) {i : ℕ}
    (hi : i < l.length) :
    (rollingApply w f l).getD i none = rollingEntry w f l i :=
  getD_map_range none _ hi

/-- The last entry of a rolling series over a full window is the aggregate
of the trailing `w` values. -/
theorem ilocLastO_rollingApply (w : ℕ) (f : List ℝ → ℝ) (l : List ℝ)
    (hw : w ≤ l.length) (hl : l.length ≠ 0) :
    ilocLastO (rollingApply w f l) = f ((l.drop (l.length - w)).take w) := by
  rw [ilocLastO, length_rollingApply,
    getD_rollingApply w f l (by omega), rollingEntry, if_neg (by omega)]
  have harg : l.length - 1 + 1 - w = l.length - w := by omega
  rw [harg]
  rfl

/-- Truncating a rolling series to its first `k` entries. -/
theorem take_rollingApply (w : ℕ) (f : List ℝ → ℝ) (l : List ℝ) {k : ℕ}
    (hk : k ≤ l.length) :
    (rollingApply w f l).take k =
      (List.range k).map (rollingEntry w f l) := by
  rw [rollingApply, ← List.map_take, List.take_range, min_eq_left hk]

/-- An elementwise combination of two rolling series over the same input is
a map over the index range. -/
theorem zipWith_rollingApply (g : Option ℝ → Option ℝ → Option ℝ)
    (w₁ w₂ : ℕ) (f₁ f₂ : List ℝ → ℝ) (l : List ℝ) :
    List.zipWith g (rollingApply w₁ f₁ l) (rollingApply w₂ f₂ l) =
      (List.range l.length).map
        (fun i => g (rollingEntry w₁ f₁ l i) (rollingEntry w₂ f₂ l i)) := by
  rw [rollingApply, rollingApply, List.zipWith_map_left,
    List.zipWith_map_right, List.zipWith_same]

/-- A skipping mean of a series of non-negative valid entries is
non-negative. -/
theorem nanMean_nonneg {l : List (Option ℝ)}
    (h : ∀ x ∈ l.filterMap id, (0:ℝ) ≤ x) : 0 ≤ nanMean l := by
  rw [nanMean, meanL]
  exact div_nonneg (List.sum_nonneg h) (by positivity)

/-- Every valid entry of a rolling standard-deviation series is a standard
deviation, hence non-negative. -/
theorem rollingVol5_entries_nonneg (s : List Session) {x : ℝ}
    {e : Option ℝ} (he : e ∈ rollingVol5 s) (hx : e = some x) : 0 ≤ x := by
  rw [rollingVol5, rollingApply] at he
  obtain ⟨i, _, hi⟩ := List.mem_map.mp he
  rw [rollingEntry] at hi
  by_cases hc : i + 1 < 5
  · rw [if_pos hc] at hi
    rw [← hi] at hx
    exact absurd hx (by simp)
  · rw [if_neg hc] at hi
    rw [← hi] at hx
    have : x = sampleStd (((plColumn s).drop (i + 1 - 5)).take 5) := by
      exact (Option.some.injEq _ _ ▸ hx).symm
    rw [this, sampleStd]
    exact Real.sqrt_nonneg _

/-- The historical volatility baseline is a mean of standard deviations and
is therefore never negative. -/
theorem historicalVol5_nonneg (s : List Session) : 0 ≤ historicalVol5 s := by
  rw [historicalVol5]
  split_ifs with h
  · refine nanMean_nonneg ?_
    intro x hx
    obtain ⟨e, he, hex⟩ := List.mem_filterMap.mp hx
    exact rollingVol5_entries_nonneg s (List.mem_of_mem_take he) hex
  · exact le_refl 0

/-- Claim C8 (amended): with at least 10 sessions, the volatility regime is
`"High Volatility"` iff the latest 5-session rolling std strictly exceeds
1.5 times the historical baseline, `"Low Volatility"` iff it is strictly
below 0.7 times the baseline (and not high), `"Normal"` otherwise; the
volatility ratio is current/historical when the baseline is positive and
`1.0` when it is `0` (the baseline is never negative). -/
theorem C8_volatility_regime (s : List Session) (h : 10 ≤ s.length) :
    volatility_clustering s = PyDict.ok (volatility_core s) ∧
    ((volatility_core s).volatility_regime = "High Volatility" ↔
      historicalVol5 s * 1.5 < currentVol5 s) ∧
    ((volatility_core s).volatility_regime = "Low Volatility" ↔
      (¬historicalVol5 s * 1.5 < currentVol5 s ∧
        currentVol5 s < historicalVol5 s * 0.7)) ∧
    ((volatility_core s).volatility_regime = "Normal" ↔
      (¬historicalVol5 s * 1.5 < currentVol5 s ∧
        ¬currentVol5 s < historicalVol5 s * 0.7)) ∧
    VolResult.volatility_ratio (volatility_core s) =
      (if 0 < historicalVol5 s then currentVol5 s / historicalVol5 s
        else 1) ∧
    (historicalVol5 s = 0 →
      VolResult.volatility_ratio (volatility_core s) = 1) ∧
    0 ≤ historicalVol5 s := by
  have hreg : (volatility_core s).volatility_regime =
      if historicalVol5 s * 1.5 < currentVol5 s then "High Volatility"
      else if currentVol5 s < historicalVol5 s * 0.7 then "Low Volatility"
      else "Normal" := rfl
  have hrat : VolResult.volatility_ratio (volatility_core s) =
      if 0 < historicalVol5 s then currentVol5 s / historicalVol5 s
      else 1 := rfl
  refine ⟨by rw [volatility_clustering, if_neg (by omega)], ?_, ?_, ?_,
    hrat, ?_, historicalVol5_nonneg s⟩
  · rw [hreg]
    split_ifs with h1 h2 <;> simp_all
  · rw [hreg]
    split_ifs with h1 h2 <;> simp_all
  · rw [hreg]
    split_ifs with h1 h2 <;> simp_all
  · intro h0
    rw [hrat, if_neg (by rw [h0]; exact lt_irrefl 0)]

/-- Witness for C8 at ten unit-profit sessions. -/
theorem C8_volatility_regime_witness :
    volatility_clustering (List.replicate 10 sess1) =
      PyDict.ok (volatility_core (List.replicate 10 sess1)) ∧
    VolResult.volatility_ratio (volatility_core (List.replicate 10 sess1)) =
      (if 0 < historicalVol5 (List.replicate 10 sess1) then
        currentVol5 (List.replicate 10 sess1) /
          historicalVol5 (List.replicate 10 sess1)
        else 1) :=
  ⟨(C8_volatility_regime _ (by simp)).1,
    (C8_volatility_regime _ (by simp)).2.2.2.2.1⟩

/-- The 10-session sequence whose current 5-session rolling std is exactly
1.5 times its historical baseline. -/
def v8Example : List Session :=
  [sessOf 0, sessOf 0, sessOf 4, sessOf 4, sessOf 2,
    sessOf 0, sessOf 0, sessOf 6, sessOf 6, sessOf 3]

/-- Profit/loss column of `v8Example`. -/
theorem v8Example_pl :
    plColumn v8Example = [0, 0, 4, 4, 2, 0, 0, 6, 6, 3] := by
  simp [plColumn, v8Example, sessOf]

/-- Current 5-session rolling std of `v8Example`. -/
theorem v8Example_cur : currentVol5 v8Example = 3 := by
  have hlen : (plColumn v8Example).length = 10 := by rw [v8Example_pl]; rfl
  rw [currentVol5, rollingVol5, if_pos (by rw [length_rollingApply, hlen]; omega),
    ilocLastO_rollingApply 5 sampleStd _ (by omega) (by omega)]
  rw [v8Example_pl] at hlen ⊢
  rw [hlen]
  have hwin : ((([0, 0, 4, 4, 2, 0, 0, 6, 6, 3] : List ℝ).drop (10 - 5)).take 5) =
      [0, 0, 6, 6, 3] := rfl
  rw [hwin]
  have hv : sampleVar [0, 0, 6, 6, 3] = 9 := by
    norm_num [sampleVar, meanL]
  rw [sampleStd, hv, show (9:ℝ) = 3^2 by norm_num,
    Real.sqrt_sq (by norm_num : (0:ℝ) ≤ 3)]

/-- Historical 5-session rolling-std baseline of `v8Example`. -/
theorem v8Example_hist : historicalVol5 v8Example = 2 := by
  have hlen : (plColumn v8Example).length = 10 := by rw [v8Example_pl]; rfl
  rw [historicalVol5, rollingVol5, if_pos (by rw [length_rollingApply, hlen]; omega),
    length_rollingApply, hlen,
    take_rollingApply 5 sampleStd _ (by rw [hlen]; omega)]
  have hrange : List.range (10 - 5) = [0, 1, 2, 3, 4] := rfl
  rw [hrange]
  have h0 : rollingEntry 5 sampleStd (plColumn v8Example) 0 = none := by
    rw [rollingEntry, if_pos (by omega)]
  have h1 : rollingEntry 5 sampleStd (plColumn v8Example) 1 = none := by
    rw [rollingEntry, if_pos (by omega)]
  have h2 : rollingEntry 5 sampleStd (plColumn v8Example) 2 = none := by
    rw [rollingEntry, if_pos (by omega)]
  have h3 : rollingEntry 5 sampleStd (plColumn v8Example) 3 = none := by
    rw [rollingEntry, if_pos (by omega)]
  have h4 : rollingEntry 5 sampleStd (plColumn v8Example) 4 = some 2 := by
    rw [rollingEntry, if_neg (by omega), v8Example_pl]
    have hwin : ((([0, 0, 4, 4, 2, 0, 0, 6, 6, 3] : List ℝ).drop (4 + 1 - 5)).take 5) =
        [0, 0, 4, 4, 2] := rfl
    rw [hwin]
    have hv : sampleVar [0, 0, 4, 4, 2] = 4 := by
      norm_num [sampleVar, meanL]
    rw [sampleStd, hv, show (4:ℝ) = 2^2 by norm_num,
      Real.sqrt_sq (by norm_num : (0:ℝ) ≤ 2)]
  rw [List.map_cons, List.map_cons, List.map_cons, List.map_cons,
    List.map_cons, List.map_nil, h0, h1, h2, h3, h4]
  have hfm : List.filterMap id [none, none, none, none, some (2:ℝ)] = [2] :=
    rfl
  rw [nanMean, hfm]
  norm_num [meanL]

/-- Counterexample to C8 as stated: on `v8Example` the current rolling std
equals exactly 1.5 times the historical baseline, yet the regime is
`"Normal"` — the source's comparison is strict (`>`), not the `≥` the claim
asserts. -/
theorem C8_counterexample :
    volatility_clustering v8Example = PyDict.ok (volatility_core v8Example) ∧
    currentVol5 v8Example = 3 ∧
    historicalVol5 v8Example = 2 ∧
    currentVol5 v8Example = 1.5 * historicalVol5 v8Example ∧
    (volatility_core v8Example).volatility_regime = "Normal" := by
  have hlen : v8Example.length = 10 := by rfl
  have hgate := vol_gate_ok v8Example (by omega)
  have hreg : (volatility_core v8Example).volatility_regime =
      if historicalVol5 v8Example * 1.5 < currentVol5 v8Example then
        "High Volatility"
      else if currentVol5 v8Example < historicalVol5 v8Example * 0.7 then
        "Low Volatility"
      else "Normal" := rfl
  refine ⟨hgate, v8Example_cur, v8Example_hist, ?_, ?_⟩
  · rw [v8Example_cur, v8Example_hist]; norm_num
  · rw [hreg, v8Example_cur, v8Example_hist]
    norm_num

/-- A draw stream whose first draw is `0` and all later draws are `1`. -/
def mcStreamA : ℕ → ℝ := fun n => if n = 0 then 0 else 1

/-- A three-session input for the Monte Carlo model, mean 2 and sample
std-dev 2. -/
def mcSessions : List Session := [sessOf 0, sessOf 2, sessOf 4]

/-- Claim C5 (amended): the source accepts no seed; modelling the ambient
generator explicitly, the forecast output is a deterministic function of the
input sessions and the draws the run consumes — two runs consuming
identical draws produce identical output. -/
theorem C5_draw_determinism (z w : ℕ → ℝ) (c n k : ℕ) (s : List Session)
    (h : ∀ i, i < n * k → z (c + i) = w (c + i)) :
    monte_carlo_simulation z c n k s = monte_carlo_simulation w c n k s := by
  rw [monte_carlo_simulation, monte_carlo_simulation]
  by_cases hs : s.length = 0
  · rw [if_pos hs, if_pos hs]
  · rw [if_neg hs, if_neg hs]
    have hfin : mcFinalPLs z c n k (plColumn s) =
        mcFinalPLs w c n k (plColumn s) := by
      rw [mcFinalPLs, mcFinalPLs]
      refine List.map_congr_left ?_
      intro a ha
      have ha' := List.mem_range.mp ha
      congr 1
      refine List.map_congr_left ?_
      intro i hi
      have hi' := List.mem_range.mp hi
      have hb : a * k + i < n * k := by
        calc a * k + i < a * k + k := by omega
        _ = (a + 1) * k := by ring
        _ ≤ n * k := Nat.mul_le_mul_right k (by omega)
      have hz := h (a * k + i) hb
      rw [Nat.add_assoc, hz]
    simp only [hfin]

/-- Witness for C5: two genuinely different streams that agree on the single
consumed draw (index 1) produce identical forecasts. -/
theorem C5_draw_determinism_witness :
    monte_carlo_simulation mcStreamA 1 1 1 mcSessions =
      monte_carlo_simulation oneStream 1 1 1 mcSessions ∧
    mcStreamA 0 ≠ oneStream 0 := by
  constructor
  · refine C5_draw_determinism mcStreamA oneStream 1 1 1 mcSessions ?_
    intro i hi
    have : i = 0 := by omega
    subst this
    norm_num [mcStreamA, oneStream]
  · norm_num [mcStreamA, oneStream]

/-- Counterexample to C5 as stated: `monte_carlo_simulation` exposes no seed
parameter; its draws come from the advancing ambient stream, and a second
back-to-back run (starting at the cursor where the first run stopped, as
the returned cursor shows) produces a different forecast on the same
sessions. -/
theorem C5_counterexample :
    (monte_carlo_simulation mcStreamA 0 1 1 mcSessions).2 = 1 ∧
    (monte_carlo_simulation mcStreamA 0 1 1 mcSessions).1 ≠
      (monte_carlo_simulation mcStreamA 1 1 1 mcSessions).1 := by
  have hpl : plColumn mcSessions = [0, 2, 4] := by
    simp [plColumn, mcSessions, sessOf]
  have hne : ¬mcSessions.length = 0 := by simp [mcSessions]
  have hm : meanL [(0:ℝ), 2, 4] = 2 := by norm_num [meanL]
  have hv : sampleVar [(0:ℝ), 2, 4] = 4 := by norm_num [sampleVar, meanL]
  have hs : sampleStd [(0:ℝ), 2, 4] = 2 := by
    rw [sampleStd, hv, show (4:ℝ) = 2 ^ 2 by norm_num,
      Real.sqrt_sq (by norm_num : (0:ℝ) ≤ 2)]
  have h1 : mcFinalPLs mcStreamA 0 1 1 (plColumn mcSessions) = [2] := by
    rw [hpl, mcFinalPLs]
    rw [show List.range 1 = [0] from rfl]
    simp only [List.map_cons, List.map_nil, List.sum_cons, List.sum_nil]
    rw [hm, hs]
    norm_num [mcStreamA]
  have h2 : mcFinalPLs mcStreamA 1 1 1 (plColumn mcSessions) = [4] := by
    rw [hpl, mcFinalPLs]
    rw [show List.range 1 = [0] from rfl]
    simp only [List.map_cons, List.map_nil, List.sum_cons, List.sum_nil]
    rw [hm, hs]
    norm_num [mcStreamA]
  constructor
  · rw [monte_carlo_simulation, if_neg hne]
  · rw [monte_carlo_simulation, monte_carlo_simulation, if_neg hne,
      if_neg hne]
    simp only [h1, h2]
    intro heq
    have hfields := (PyDict.ok.injEq _ _).mp heq
    have hmean := congrArg MCStats.mean_expected_pl hfields
    simp only at hmean
    rw [meanL, meanL] at hmean
    norm_num at hmean

/-- Claim C10: in every successful result the reported component scores
`performance_deterioration`, `negative_trend` and `volatility_increase` are
capped fractions (0.4, 0.3, 0.1) of the final composite score — not the
factors' actual contributions — while `regime_change` is the actual flat
contribution of the regime factor. -/
theorem C10_component_scores (pv : List ℝ → ℝ) (s : List Session)
    (h : 50 ≤ s.length) :
    alpha_decay_score pv s = PyDict.ok (alpha_core pv s) ∧
    (alpha_core pv s).component_scores.performance_deterioration =
      min 80 ((alpha_core pv s).alpha_decay_score * 0.4) ∧
    (alpha_core pv s).component_scores.negative_trend =
      min 30 ((alpha_core pv s).alpha_decay_score * 0.3) ∧
    (alpha_core pv s).component_scores.volatility_increase =
      min 10 ((alpha_core pv s).alpha_decay_score * 0.1) ∧
    (alpha_core pv s).component_scores.regime_change =
      (if (regime_core s).current_regime = "Poor Performance" then 20
        else 0) :=
  ⟨alpha_gate_ok pv s h, rfl, rfl, rfl, rfl⟩

/-- Witness for C10 at fifty unit-profit sessions. -/
theorem C10_component_scores_witness :
    alpha_decay_score pvOne (List.replicate 50 sess1) =
      PyDict.ok (alpha_core pvOne (List.replicate 50 sess1)) ∧
    (alpha_core pvOne
        (List.replicate 50 sess1)).component_scores.performance_deterioration =
      min 80 ((alpha_core pvOne
        (List.replicate 50 sess1)).alpha_decay_score * 0.4) :=
  ⟨(C10_component_scores pvOne _ (by simp)).1,
    (C10_component_scores pvOne _ (by simp)).2.1⟩

/-- The P/L sub-score is clamped to `[0, 40]`. -/
theorem plComponent_bounds (w : WindowData) :
    0 ≤ plComponent w ∧ plComponent w ≤ 40 := by
  rw [plComponent]
  split_ifs
  · exact ⟨le_max_left 0 _, max_le (by norm_num) (min_le_left _ _)⟩
  · norm_num

/-- The Sharpe sub-score is clamped to `[0, 20]`. -/
theorem sharpeComponent_bounds (w : WindowData) :
    0 ≤ sharpeComponent w ∧ sharpeComponent w ≤ 20 := by
  rw [sharpeComponent]
  split_ifs
  · exact ⟨le_max_left 0 _, max_le (by norm_num) (min_le_left _ _)⟩
  · norm_num

/-- The win-rate sub-score is clamped to `[0, 20]`. -/
theorem winrateComponent_bounds (w : WindowData) :
    0 ≤ winrateComponent w ∧ winrateComponent w ≤ 20 := by
  rw [winrateComponent]
  split_ifs
  · exact ⟨le_max_left 0 _, max_le (by norm_num) (min_le_left _ _)⟩
  · norm_num

/-- The significance multiplier always lies in `[0.1, 1]`. -/
theorem significance_multiplier_bounds (sig : String) :
    0.1 ≤ significance_multiplier sig ∧ significance_multiplier sig ≤ 1 := by
  rw [significance_multiplier]
  split_ifs <;> norm_num

/-- A zipped product sum as a `Finset.range` sum over padded indexing. -/
theorem zipWith_mul_sum_eq (as bs : List ℝ) :
    (List.zipWith (fun a b => a * b) as bs).sum =
      ∑ i ∈ Finset.range (min as.length bs.length),
        as.getD i 0 * bs.getD i 0 := by
  induction as generalizing bs with
  | nil => simp
  | cons a as ih =>
    cases bs with
    | nil => simp
    | cons b bs =>
      rw [List.zipWith_cons_cons, List.sum_cons, ih bs]
      rw [List.length_cons, List.length_cons, Nat.succ_min_succ,
        Finset.sum_range_succ']
      simp [add_comm]

/-- A zipped self-product sum is a sum of squares, hence non-negative. -/
theorem zipWith_self_sum_nonneg (as : List ℝ) :
    0 ≤ (List.zipWith (fun a b => a * b) as as).sum := by
  rw [zipWith_mul_sum_eq]
  exact Finset.sum_nonneg (fun i _ => mul_self_nonneg _)

/-- Cauchy-Schwarz for zipped product sums of equal-length lists. -/
theorem list_cauchy_schwarz (as bs : List ℝ) (hlen : as.length = bs.length) :
    ((List.zipWith (fun a b => a * b) as bs).sum) ^ 2 ≤
      (List.zipWith (fun a b => a * b) as as).sum *
        (List.zipWith (fun a b => a * b) bs bs).sum := by
  rw [zipWith_mul_sum_eq as bs, zipWith_mul_sum_eq as as,
    zipWith_mul_sum_eq bs bs, hlen, min_self]
  have h := Finset.sum_mul_sq_le_sq_mul_sq (Finset.range bs.length)
    (fun i => as.getD i 0) (fun i => bs.getD i 0)
  simpa [pow_two] using h

/-- The centered product sum as a plain zipped product of centered lists. -/
theorem linSxy_as_zip (xs ys : List ℝ) :
    linSxy xs ys =
      (List.zipWith (fun a b => a * b) (xs.map (fun a => a - meanL xs))
        (ys.map (fun b => b - meanL ys))).sum := by
  rw [linSxy, List.zipWith_map_left, List.zipWith_map_right]

/-- The centered sum of squares is non-negative. -/
theorem linSxy_self_nonneg (xs : List ℝ) : 0 ≤ linSxy xs xs := by
  rw [linSxy_as_zip]
  exact zipWith_self_sum_nonneg _

/-- The r-value of a fit of equal-length arrays has absolute value at most
one (Cauchy-Schwarz). -/
theorem trend_r_abs_le_one (xs ys : List ℝ) (hlen : xs.length = ys.length) :
    |linSxy xs ys / Real.sqrt (linSxy xs xs * linSxy ys ys)| ≤ 1 := by
  by_cases hD : Real.sqrt (linSxy xs xs * linSxy ys ys) = 0
  · rw [hD, div_zero, abs_zero]
    norm_num
  · have hpos : 0 < Real.sqrt (linSxy xs xs * linSxy ys ys) :=
      lt_of_le_of_ne (Real.sqrt_nonneg _) (Ne.symm hD)
    rw [abs_div, abs_of_pos hpos, div_le_one hpos]
    have hcs : (linSxy xs ys) ^ 2 ≤ linSxy xs xs * linSxy ys ys := by
      rw [linSxy_as_zip xs ys, linSxy_as_zip xs xs, linSxy_as_zip ys ys]
      exact list_cauchy_schwarz _ _ (by simp [hlen])
    calc |linSxy xs ys| =
        Real.sqrt (|linSxy xs ys| ^ 2) :=
          (Real.sqrt_sq (abs_nonneg _)).symm
      _ ≤ Real.sqrt (linSxy xs xs * linSxy ys ys) := by
          refine Real.sqrt_le_sqrt ?_
          rw [sq_abs]
          exact hcs

/-- The trend factor lies in `[0, 30]` for equal-length regression arrays. -/
theorem trendComponent_bounds (pv : List ℝ → ℝ) (xs ys : List ℝ)
    (hlen : xs.length = ys.length) :
    0 ≤ trendComponent (trendFit pv xs ys) ∧
      trendComponent (trendFit pv xs ys) ≤ 30 := by
  have hstr : (trendFit pv xs ys).trend_strength =
      |linSxy xs ys / Real.sqrt (linSxy xs xs * linSxy ys ys)| := rfl
  have hs0 : 0 ≤ (trendFit pv xs ys).trend_strength := by
    rw [hstr]
    exact abs_nonneg _
  have hs1 : (trendFit pv xs ys).trend_strength ≤ 1 := by
    rw [hstr]
    exact trend_r_abs_le_one xs ys hlen
  have hm := significance_multiplier_bounds (trendFit pv xs ys).significance
  rw [trendComponent]
  split_ifs
  · constructor
    · have : (0:ℝ) ≤ significance_multiplier (trendFit pv xs ys).significance := by
        linarith [hm.1]
      positivity
    · nlinarith [hm.1, hm.2]
  · norm_num

/-- The regime factor is the flat 0-or-20 contribution. -/
theorem regimeComponent_cases (g : RegimeResult) :
    regimeComponent g = 0 ∨ regimeComponent g = 20 := by
  rw [regimeComponent]
  split_ifs
  · exact Or.inr rfl
  · exact Or.inl rfl

/-- The volatility factor lies in `[0, 10]`: under a high-volatility regime
with a positive baseline the ratio exceeds 1.5, and with a zero baseline the
ratio is 1, so the added term is never negative; otherwise nothing is
added. -/
theorem volComponent_bounds (s : List Session) :
    0 ≤ volComponent (volatility_core s) ∧
      volComponent (volatility_core s) ≤ 10 := by
  have hreg : (volatility_core s).volatility_regime =
      if historicalVol5 s * 1.5 < currentVol5 s then "High Volatility"
      else if currentVol5 s < historicalVol5 s * 0.7 then "Low Volatility"
      else "Normal" := rfl
  have hrat : VolResult.volatility_ratio (volatility_core s) =
      if 0 < historicalVol5 s then currentVol5 s / historicalVol5 s
      else 1 := rfl
  rw [volComponent, hreg, hrat]
  by_cases hh : historicalVol5 s * 1.5 < currentVol5 s
  · rw [if_pos hh, if_pos rfl]
    refine ⟨le_min (by norm_num) ?_, min_le_left _ _⟩
    by_cases h0 : 0 < historicalVol5 s
    · rw [if_pos h0]
      have hr : (1.5:ℝ) < currentVol5 s / historicalVol5 s := by
        rw [lt_div_iff₀ h0]
        linarith
      nlinarith
    · rw [if_neg h0]
      norm_num
  · rw [if_neg hh]
    by_cases hl : currentVol5 s < historicalVol5 s * 0.7
    · rw [if_pos hl, if_neg (by decide)]
      norm_num
    · rw [if_neg hl, if_neg (by decide)]
      norm_num

/-- With the default periods the performance factor is the three 20-session
sub-scores (the `'20_session'` key is present). -/
theorem perfComponent_default (s : List Session) :
    perfComponent (rolling_core [10, 20, 50] s) =
      plComponent (windowData 20 (plColumn s)) +
        sharpeComponent (windowData 20 (plColumn s)) +
        winrateComponent (windowData 20 (plColumn s)) := by
  have hper : (rolling_core [10, 20, 50] s).periods = [10, 20, 50] := rfl
  rw [perfComponent, hper, if_pos (by decide : (20:ℕ) ∈ [10, 20, 50])]
  rfl

/-- The composite score is exactly the sum of the six factor
contributions. -/
theorem alpha_score_decomp (pv : List ℝ → ℝ) (s : List Session) :
    (alpha_core pv s).alpha_decay_score =
      plComponent (windowData 20 (plColumn s)) +
        sharpeComponent (windowData 20 (plColumn s)) +
        winrateComponent (windowData 20 (plColumn s)) +
        trendComponent (trend_core pv s).profit_loss +
        regimeComponent (regime_core s) +
        volComponent (volatility_core s) := by
  have h : (alpha_core pv s).alpha_decay_score =
      decayScoreOf (rolling_core [10, 20, 50] s) (trend_core pv s)
        (regime_core s) (volatility_core s) := rfl
  rw [h, decayScoreOf, perfComponent_default]

/-- The `profit_loss` entry of the trend result is the fit of the
profit/loss column against the session numbers. -/
theorem trend_core_profit_loss (pv : List ℝ → ℝ) (s : List Session) :
    (trend_core pv s).profit_loss =
      trendFit pv (sessionNumbers s.length) (plColumn s) := rfl

/-- Truncating an elementwise-divided pair of rolling series. -/
theorem take_zipRolling (w : ℕ) (f g : List ℝ → ℝ) (l : List ℝ) {k : ℕ}
    (hk : k ≤ l.length) :
    (List.zipWith optDiv (rollingApply w f l) (rollingApply w g l)).take k =
      (List.range k).map
        (fun i => optDiv (rollingEntry w f l i) (rollingEntry w g l i)) := by
  rw [zipWith_rollingApply, ← List.map_take, List.take_range, min_eq_left hk]

/-- Last entry of an elementwise-divided pair of rolling series over a full
window. -/
theorem ilocLastO_zipRolling (w : ℕ) (f g : List ℝ → ℝ) (l : List ℝ)
    (hw : w ≤ l.length) (hl : l.length ≠ 0) :
    ilocLastO (List.zipWith optDiv (rollingApply w f l)
        (rollingApply w g l)) =
      f ((l.drop (l.length - w)).take w) /
        g ((l.drop (l.length - w)).take w) := by
  rw [zipWith_rollingApply, ilocLastO]
  have hlen : ((List.range l.length).map (fun i =>
      optDiv (rollingEntry w f l i) (rollingEntry w g l i))).length =
      l.length := by
    simp
  rw [hlen, getD_map_range none _ (by omega), rollingEntry, rollingEntry,
    if_neg (by omega), if_neg (by omega),
    show l.length - 1 + 1 - w = l.length - w from by omega]
  rfl

/-- A 50-session profit/loss pattern: thirty sessions alternating +3/+1
followed by twenty alternating -1 and -3.  Every 20-window used for the
historical 20-session baseline lies in the first block; the current
20-window is exactly the second block. -/
def pl0 : List ℝ :=
  [3, 1, 3, 1, 3, 1, 3, 1, 3, 1, 3, 1, 3, 1, 3, 1, 3, 1, 3, 1,
    3, 1, 3, 1, 3, 1, 3, 1, 3, 1,
    -1, -3, -1, -3, -1, -3, -1, -3, -1, -3,
    -1, -3, -1, -3, -1, -3, -1, -3, -1, -3]

/-- Length of the decay pattern. -/
theorem pl0_len : pl0.length = 50 := rfl

/-- The 50-session input on which the composite score exceeds 100. -/
def decayInput : List Session := pl0.map sessOf

/-- Profit/loss column of `decayInput`. -/
theorem decayInput_pl : plColumn decayInput = pl0 := by
  rw [plColumn, decayInput, List.map_map,
    show Session.profit_loss ∘ sessOf = id from rfl, List.map_id]

/-- Length of `decayInput`. -/
theorem decayInput_len : decayInput.length = 50 := by
  rw [decayInput, List.length_map, pl0_len]

set_option maxHeartbeats 1000000 in
/-- The current 20-session rolling mean of `pl0`. -/
theorem decay_cur_mean : ilocLastO (rollingApply 20 meanL pl0) = -2 := by
  rw [ilocLastO_rollingApply 20 meanL pl0 (by rw [pl0_len]; omega)
    (by rw [pl0_len]; omega), pl0_len]
  norm_num [pl0, meanL]

set_option maxHeartbeats 2000000 in
/-- The historical 20-session rolling-mean baseline of `pl0`. -/
theorem decay_hist_mean :
    nanMean ((rollingApply 20 meanL pl0).take (pl0.length - 20)) = 2 := by
  rw [show pl0.length - 20 = 30 from rfl,
    take_rollingApply 20 meanL pl0 (by rw [pl0_len]; omega),
    show List.range 30 = [0, 1, 2, 3, 4, 5, 6, 7, 8, 9, 10, 11, 12, 13, 14,
      15, 16, 17, 18, 19, 20, 21, 22, 23, 24, 25, 26, 27, 28, 29] from rfl]
  simp only [List.map_cons, List.map_nil, rollingEntry]
  norm_num [pl0, nanMean, meanL, List.filterMap_cons]

/-- The 20-session P/L deterioration of `pl0` is -200 percent. -/
theorem decay_pl_det : (windowData 20 pl0).pl_deterioration = -200 := by
  show pctDet (ilocLastO (rollingApply 20 meanL pl0))
    (nanMean ((rollingApply 20 meanL pl0).take (pl0.length - 20))) = -200
  rw [decay_cur_mean, decay_hist_mean, pctDet, if_pos (by norm_num)]
  norm_num

set_option maxHeartbeats 2000000 in
/-- The current 20-session rolling Sharpe of `pl0`. -/
theorem decay_cur_sharpe :
    ilocLastO (List.zipWith optDiv (rollingApply 20 meanL pl0)
      (rollingApply 20 sampleStd pl0)) = -2 / Real.sqrt (20 / 19) := by
  rw [ilocLastO_zipRolling 20 meanL sampleStd pl0 (by rw [pl0_len]; omega)
    (by rw [pl0_len]; omega), pl0_len]
  norm_num [pl0, meanL, sampleStd, sampleVar]

set_option maxHeartbeats 4000000 in
/-- The historical 20-session rolling-Sharpe baseline of `pl0`. -/
theorem decay_hist_sharpe :
    nanMean ((List.zipWith optDiv (rollingApply 20 meanL pl0)
      (rollingApply 20 sampleStd pl0)).take (pl0.length - 20)) =
      2 / Real.sqrt (20 / 19) := by
  rw [show pl0.length - 20 = 30 from rfl,
    take_zipRolling 20 meanL sampleStd pl0 (by rw [pl0_len]; omega),
    show List.range 30 = [0, 1, 2, 3, 4, 5, 6, 7, 8, 9, 10, 11, 12, 13, 14,
      15, 16, 17, 18, 19, 20, 21, 22, 23, 24, 25, 26, 27, 28, 29] from rfl]
  simp only [List.map_cons, List.map_nil, rollingEntry]
  norm_num [pl0, nanMean, meanL, List.filterMap_cons, optDiv, sampleStd,
    sampleVar]
  ring_nf

/-- The 20-session Sharpe deterioration of `pl0` is -200 percent (the
common `√(20/19)` scale of current and historical Sharpe cancels). -/
theorem decay_sharpe_det : (windowData 20 pl0).sharpe_deterioration = -200 := by
  show pctDet
    (ilocLastO (List.zipWith optDiv (rollingApply 20 meanL pl0)
      (rollingApply 20 sampleStd pl0)))
    (nanMean ((List.zipWith optDiv (rollingApply 20 meanL pl0)
      (rollingApply 20 sampleStd pl0)).take (pl0.length - 20))) = -200
  rw [decay_cur_sharpe, decay_hist_sharpe]
  have ht : 0 < Real.sqrt (20 / 19) := Real.sqrt_pos.mpr (by norm_num)
  have hhist : (0:ℝ) < 2 / Real.sqrt (20 / 19) := by positivity
  rw [pctDet, if_pos hhist.ne', abs_of_pos hhist]
  field_simp
  ring_nf
  rw [Real.sq_sqrt (by norm_num : (0:ℝ) ≤ 20)]
  ring

set_option maxHeartbeats 1000000 in
/-- The current 20-session rolling win rate of `pl0`. -/
theorem decay_cur_wr : ilocLastO (rollingApply 20 winrateOf pl0) = 0 := by
  rw [ilocLastO_rollingApply 20 winrateOf pl0 (by rw [pl0_len]; omega)
    (by rw [pl0_len]; omega), pl0_len]
  norm_num [pl0, winrateOf]

set_option maxHeartbeats 2000000 in
/-- The historical 20-session rolling-win-rate baseline of `pl0`. -/
theorem decay_hist_wr :
    nanMean ((rollingApply 20 winrateOf pl0).take (pl0.length - 20)) =
      100 := by
  rw [show pl0.length - 20 = 30 from rfl,
    take_rollingApply 20 winrateOf pl0 (by rw [pl0_len]; omega),
    show List.range 30 = [0, 1, 2, 3, 4, 5, 6, 7, 8, 9, 10, 11, 12, 13, 14,
      15, 16, 17, 18, 19, 20, 21, 22, 23, 24, 25, 26, 27, 28, 29] from rfl]
  simp only [List.map_cons, List.map_nil, rollingEntry]
  norm_num [pl0, nanMean, meanL, List.filterMap_cons, winrateOf]

/-- The 20-session win-rate deterioration of `pl0` is -100 points. -/
theorem decay_wr_det : (windowData 20 pl0).winrate_deterioration = -100 := by
  show ilocLastO (rollingApply 20 winrateOf pl0) -
    nanMean ((rollingApply 20 winrateOf pl0).take (pl0.length - 20)) = -100
  rw [decay_cur_wr, decay_hist_wr]
  norm_num

/-- On `pl0` the P/L factor saturates its 40-point cap. -/
theorem decay_plComponent : plComponent (windowData 20 pl0) = 40 := by
  rw [plComponent, decay_pl_det]
  norm_num

/-- On `pl0` the Sharpe factor saturates its 20-point cap. -/
theorem decay_sharpeComponent : sharpeComponent (windowData 20 pl0) = 20 := by
  rw [sharpeComponent, decay_sharpe_det]
  norm_num

/-- On `pl0` the win-rate factor saturates its 20-point cap. -/
theorem decay_winrateComponent :
    winrateComponent (windowData 20 pl0) = 20 := by
  rw [winrateComponent, decay_wr_det]
  norm_num

set_option maxHeartbeats 1000000 in
/-- On `decayInput` the current regime is poor: the 5-session MA of the last
sessions (-11/5) is below the 15-session MA (-31/15). -/
theorem decay_regime_poor :
    (regime_core decayInput).current_regime = "Poor Performance" := by
  show (if 0 < decayInput.length then
      if oLT ((rollingApply 15 meanL (plColumn decayInput)).getD
          ((rollingApply 15 meanL (plColumn decayInput)).length - 1) none)
        ((rollingApply 5 meanL (plColumn decayInput)).getD
          ((rollingApply 5 meanL (plColumn decayInput)).length - 1) none)
      then "Good Performance" else "Poor Performance"
    else "Neutral") = "Poor Performance"
  rw [decayInput_pl, if_pos (by rw [decayInput_len]; omega)]
  have h15 : (rollingApply 15 meanL pl0).getD
      ((rollingApply 15 meanL pl0).length - 1) none =
      some (-31 / 15) := by
    rw [length_rollingApply, pl0_len,
      getD_rollingApply 15 meanL pl0 (by rw [pl0_len]; omega),
      rollingEntry, if_neg (by omega)]
    norm_num [pl0, meanL]
  have h5 : (rollingApply 5 meanL pl0).getD
      ((rollingApply 5 meanL pl0).length - 1) none =
      some (-11 / 5) := by
    rw [length_rollingApply, pl0_len,
      getD_rollingApply 5 meanL pl0 (by rw [pl0_len]; omega),
      rollingEntry, if_neg (by omega)]
    norm_num [pl0, meanL]
  rw [h15, h5,
    show oLT (some ((-31:ℝ) / 15)) (some ((-11:ℝ) / 5)) =
      decide ((-31:ℝ) / 15 < (-11:ℝ) / 5) from rfl,
    decide_eq_false (by norm_num)]
  rfl

set_option maxHeartbeats 4000000 in
/-- Centered product sum of `pl0` against the session numbers. -/
theorem decay_Sxy : linSxy (sessionNumbers 50) pl0 = -1225 := by
  rw [show sessionNumbers 50 =
      ((List.range 50).map (fun i => (Nat.cast i + 1 : ℝ))) from rfl,
    show List.range 50 = [0, 1, 2, 3, 4, 5, 6, 7, 8, 9, 10, 11, 12, 13, 14,
      15, 16, 17, 18, 19, 20, 21, 22, 23, 24, 25, 26, 27, 28, 29, 30, 31,
      32, 33, 34, 35, 36, 37, 38, 39, 40, 41, 42, 43, 44, 45, 46, 47, 48,
      49] from rfl]
  norm_num [linSxy, meanL, pl0, List.zipWith]

set_option maxHeartbeats 4000000 in
/-- Centered sum of squares of the session numbers. -/
theorem decay_Sxx :
    linSxy (sessionNumbers 50) (sessionNumbers 50) = 20825 / 2 := by
  rw [show sessionNumbers 50 =
      ((List.range 50).map (fun i => (Nat.cast i + 1 : ℝ))) from rfl,
    show List.range 50 = [0, 1, 2, 3, 4, 5, 6, 7, 8, 9, 10, 11, 12, 13, 14,
      15, 16, 17, 18, 19, 20, 21, 22, 23, 24, 25, 26, 27, 28, 29, 30, 31,
      32, 33, 34, 35, 36, 37, 38, 39, 40, 41, 42, 43, 44, 45, 46, 47, 48,
      49] from rfl]
  norm_num [linSxy, meanL, List.zipWith]

set_option maxHeartbeats 4000000 in
/-- Centered sum of squares of `pl0`. -/
theorem decay_Syy : linSxy pl0 pl0 = 242 := by
  norm_num [linSxy, meanL, pl0, List.zipWith]

/-- On `decayInput` the profit/loss trend is deteriorating with non-zero
strength, so the trend factor is strictly positive whatever p-value the
external library reports. -/
theorem decay_trend_pos (pv : List ℝ → ℝ) :
    0 < trendComponent (trend_core pv decayInput).profit_loss := by
  rw [trend_core_profit_loss, decayInput_len, decayInput_pl]
  have hdir : (trendFit pv (sessionNumbers 50) pl0).trend_direction =
      "Deteriorating" := by
    show (if 0 < linSxy (sessionNumbers 50) pl0 /
        linSxy (sessionNumbers 50) (sessionNumbers 50) then "Improving"
      else "Deteriorating") = "Deteriorating"
    rw [decay_Sxy, decay_Sxx, if_neg (by norm_num)]
  have hstr : (trendFit pv (sessionNumbers 50) pl0).trend_strength =
      |linSxy (sessionNumbers 50) pl0 /
        Real.sqrt (linSxy (sessionNumbers 50) (sessionNumbers 50) *
          linSxy pl0 pl0)| := rfl
  have hstrpos : 0 < (trendFit pv (sessionNumbers 50) pl0).trend_strength := by
    rw [hstr, decay_Sxy, decay_Sxx, decay_Syy]
    refine abs_pos.mpr (div_ne_zero (by norm_num) ?_)
    rw [Real.sqrt_ne_zero']
    norm_num
  have hm := significance_multiplier_bounds
    (trendFit pv (sessionNumbers 50) pl0).significance
  have hmpos : (0:ℝ) < significance_multiplier
      (trendFit pv (sessionNumbers 50) pl0).significance := by
    linarith [hm.1]
  rw [trendComponent, if_pos hdir]
  exact mul_pos (mul_pos hstrpos (by norm_num)) hmpos

/-- On `decayInput` the composite score exceeds 100: the performance factor
contributes its full 80, the regime factor its full 20, the trend factor is
strictly positive, and the volatility factor is non-negative. -/
theorem decay_score_gt (pv : List ℝ → ℝ) :
    100 < (alpha_core pv decayInput).alpha_decay_score := by
  rw [alpha_score_decomp, decayInput_pl, decay_plComponent,
    decay_sharpeComponent, decay_winrateComponent]
  have hreg : regimeComponent (regime_core decayInput) = 20 := by
    rw [regimeComponent, if_pos decay_regime_poor]
  rw [hreg]
  have hvol := (volComponent_bounds decayInput).1
  have htr := decay_trend_pos pv
  linarith

/-- Claim C4: for every input meeting the preconditions the returned
`alpha_decay_score` is the raw sum of the factor contributions, each
individually bounded by its fixed maximum (40/20/20 for the performance
sub-scores, 30 for trend, 20 for regime, 10 for volatility); the sum itself
is never clamped, so the score is always non-negative and on `decayInput`
it exceeds 100. -/
theorem C4_score_unclamped :
    (∀ (pv : List ℝ → ℝ) (s : List Session), 50 ≤ s.length →
      alpha_decay_score pv s = PyDict.ok (alpha_core pv s) ∧
      (alpha_core pv s).alpha_decay_score =
        plComponent (windowData 20 (plColumn s)) +
          sharpeComponent (windowData 20 (plColumn s)) +
          winrateComponent (windowData 20 (plColumn s)) +
          trendComponent (trend_core pv s).profit_loss +
          regimeComponent (regime_core s) +
          volComponent (volatility_core s) ∧
      (0 ≤ plComponent (windowData 20 (plColumn s)) ∧
        plComponent (windowData 20 (plColumn s)) ≤ 40) ∧
      (0 ≤ sharpeComponent (windowData 20 (plColumn s)) ∧
        sharpeComponent (windowData 20 (plColumn s)) ≤ 20) ∧
      (0 ≤ winrateComponent (windowData 20 (plColumn s)) ∧
        winrateComponent (windowData 20 (plColumn s)) ≤ 20) ∧
      (0 ≤ trendComponent (trend_core pv s).profit_loss ∧
        trendComponent (trend_core pv s).profit_loss ≤ 30) ∧
      (regimeComponent (regime_core s) = 0 ∨
        regimeComponent (regime_core s) = 20) ∧
      (0 ≤ volComponent (volatility_core s) ∧
        volComponent (volatility_core s) ≤ 10) ∧
      0 ≤ (alpha_core pv s).alpha_decay_score) ∧
    (∀ pv : List ℝ → ℝ,
      alpha_decay_score pv decayInput =
        PyDict.ok (alpha_core pv decayInput) ∧
      100 < (alpha_core pv decayInput).alpha_decay_score) := by
  constructor
  · intro pv s h
    have hlen1 : (sessionNumbers s.length).length = (plColumn s).length := by
      simp only [sessionNumbers, plColumn, List.length_map,
        List.length_range]
    have htr : 0 ≤ trendComponent (trend_core pv s).profit_loss ∧
        trendComponent (trend_core pv s).profit_loss ≤ 30 := by
      rw [trend_core_profit_loss]
      exact trendComponent_bounds pv _ _ hlen1
    refine ⟨alpha_gate_ok pv s h, alpha_score_decomp pv s,
      plComponent_bounds _, sharpeComponent_bounds _,
      winrateComponent_bounds _, htr, regimeComponent_cases _,
      volComponent_bounds s, ?_⟩
    rw [alpha_score_decomp]
    have h1 := (plComponent_bounds (windowData 20 (plColumn s))).1
    have h2 := (sharpeComponent_bounds (windowData 20 (plColumn s))).1
    have h3 := (winrateComponent_bounds (windowData 20 (plColumn s))).1
    have h5 := regimeComponent_cases (regime_core s)
    have h6 := (volComponent_bounds s).1
    rcases h5 with h5 | h5 <;> linarith [htr.1]
  · intro pv
    exact ⟨alpha_gate_ok pv decayInput (by rw [decayInput_len]),
      decay_score_gt pv⟩

/-- Witness for C4: the decomposition applied at fifty unit-profit
sessions, and the over-100 score at `decayInput`. -/
theorem C4_score_unclamped_witness :
    alpha_decay_score pvOne (List.replicate 50 sess1) =
      PyDict.ok (alpha_core pvOne (List.replicate 50 sess1)) ∧
    0 ≤ (alpha_core pvOne (List.replicate 50 sess1)).alpha_decay_score ∧
    alpha_decay_score pvOne decayInput =
      PyDict.ok (alpha_core pvOne decayInput) ∧
    100 < (alpha_core pvOne decayInput).alpha_decay_score := by
  have h1 := C4_score_unclamped.1 pvOne (List.replicate 50 sess1) (by simp)
  have h2 := C4_score_unclamped.2 pvOne
  exact ⟨h1.1, h1.2.2.2.2.2.2.2.2, h2.1, h2.2⟩
